import Mathlib

/-!
Verification of the scene persistence pipeline of `yocto_sceneio.cpp`
(yocto-lines repository): the JSON document codec (`load_json_scene` /
`save_json_scene`), the format dispatchers, the texture save guard, and the
consistency-repair pass (`add_missing_camera`, `add_missing_radius`,
`add_missing_caps`, `add_missing_material`, `trim_memory`).

Modelling notes.
* Scalar values (`float` in the source) are carried through the modelled code
  paths without any arithmetic: they are parsed, stored, compared for equality
  and written back.  They are therefore embedded as exact literal fractions
  (`Fl`, a numerator/denominator pair) rather than floating point numbers;
  every modelled operation on them is a pass-through, so the embedding is
  exact.  The one place the source computes with floats — the look-at frame
  of the synthesized camera in `add_missing_camera`, whose helpers
  `compute_bounds`/`lookat_frame` live in headers not present in this
  repository snapshot — is abstracted as an explicit function parameter `fr`;
  no claim inspects those computed numbers.
* The JSON container (`nlohmann::ordered_json`) is embedded as an inductive
  tree with ordered object fields; `json.value(key, default)` is modelled by
  the `getOpt*` readers below, returning `none` where the C++ conversion
  throws (wrong type, element not an object, short array).
* File IO and the external pixel/mesh codecs (stb, tinyexr, PLY/OBJ/STL
  readers) are outside this repository's sources; they are modelled at their
  call boundary: a file system is a list of path/content pairs and the codecs
  store exactly the arrays the source hands them.
-/

/-- Exact scalar model of a C++ `float` value carried through the IO pipeline:
a literal fraction.  The modelled code never computes with these values, it
only stores, compares and copies them, so literal pairs are an exact model. -/
structure Fl where
  n : Int
  d : Nat
deriving DecidableEq, Repr

/-- The zero scalar (value-initialized `float`). -/
def flZero : Fl := ⟨0, 1⟩

/-- Truncation of a scalar to `int`, as C++ `static_cast<int>(float)`
(rounds toward zero).  `Int.div` truncates toward zero. -/
def flTrunc (q : Fl) : Int := Int.tdiv q.n q.d

/-- Model of `vec2f`. -/
structure Vec2 where
  x : Fl
  y : Fl
deriving DecidableEq, Repr

/-- Model of `vec3f`.  Modelled from the spec: the default-constructed vector
is all zeros (`shape.positions.emplace_back()` before the field is read). -/
structure Vec3 where
  x : Fl
  y : Fl
  z : Fl
deriving DecidableEq, Repr

/-- The zero vector, the default-constructed `vec3f`. -/
def v3Zero : Vec3 := ⟨flZero, flZero, flZero⟩

/-- Model of `vec4f`. -/
structure Vec4 where
  x : Fl
  y : Fl
  z : Fl
  w : Fl
deriving DecidableEq, Repr

/-- Model of `vec4b` (a byte RGBA pixel). -/
structure Vec4b where
  r : Nat
  g : Nat
  b : Nat
  a : Nat
deriving DecidableEq, Repr

/-- Model of `frame3f`, laid out as in the source's cast to
`array<float,12>`: the three basis columns then the origin. -/
structure Frame3 where
  x : Vec3
  y : Vec3
  z : Vec3
  o : Vec3
deriving DecidableEq, Repr

/-- The discriminated material kind (`material_type`), in the enumerator
order of the `NLOHMANN_JSON_SERIALIZE_ENUM` table. -/
inductive MaterialType where
  | matte
  | glossy
  | reflective
  | transparent
  | refractive
  | subsurface
  | volumetric
  | gltfpbr
deriving DecidableEq, Repr

/-- Model of `line_end`.  Modelled from the spec: `cap` is the
default-constructed (false/zero) value and `arrow` the true/one value written
through the `(bool&)` cast when an `arrowN` field is read. -/
inductive LineEnd where
  | cap
  | arrow
deriving DecidableEq, Repr

/-- Conversion used by `get_opt(element, "arrowN", (bool&)end)`. -/
def lineEndOfBool (b : Bool) : LineEnd := if b then .arrow else .cap

/-- Model of `camera_data`: exactly the seven fields the codec reads and
writes (pose frame, orthographic flag, lens, aspect, film, focus, aperture).
Default values come from the header not present in this snapshot, so they are
kept symbolic in a `SceneDefaults` record. -/
structure CameraData where
  frame : Frame3
  orthographic : Bool
  lens : Fl
  aspect : Fl
  film : Fl
  focus : Fl
  aperture : Fl
deriving DecidableEq, Repr

/-- Model of `material_data`: the sixteen fields the codec reads and writes. -/
structure MaterialData where
  type : MaterialType
  emission : Vec3
  color : Vec3
  metallic : Fl
  roughness : Fl
  ior : Fl
  trdepth : Fl
  scattering : Vec3
  scanisotropy : Fl
  opacity : Fl
  emission_tex : Int
  color_tex : Int
  roughness_tex : Int
  scattering_tex : Int
  normal_tex : Int
deriving DecidableEq, Repr

/-- Model of `shape_data`: topology arrays, per-vertex attribute arrays and
the border radius.  Default-constructed C++ vectors are empty. -/
structure ShapeData where
  points : List Int
  lines : List (Int × Int)
  triangles : List (Int × Int × Int)
  quads : List (Int × Int × Int × Int)
  positions : List Vec3
  normals : List Vec3
  texcoords : List Vec2
  colors : List Vec4
  radius : List Fl
  tangents : List Vec4
  ends : List LineEnd
  border_radius : Fl
deriving DecidableEq, Repr

/-- The default-constructed shape: empty arrays, with the border radius value
taken from the (header-defined, hence parameterized) member initializer. -/
def defShape (b : Fl) : ShapeData :=
  ⟨[], [], [], [], [], [], [], [], [], [], [], b⟩

/-- Model of `texture_data`.  Modelled from the spec: the default-constructed
texture has zero size, `linear = false` and both pixel buffers empty. -/
structure TextureData where
  width : Int
  height : Int
  linear : Bool
  pixelsf : List Vec4
  pixelsb : List Vec4b
deriving DecidableEq, Repr

/-- The default-constructed texture. -/
def defTexture : TextureData := ⟨0, 0, false, [], []⟩

/-- Model of `instance_data`: placement frame, shape index, material index
and border-material index. -/
structure InstanceData where
  frame : Frame3
  shape : Int
  material : Int
  border_material : Int
deriving DecidableEq, Repr

/-- Model of `scene_data`: the five entity collections, their parallel name
arrays, and the copyright string. -/
structure SceneData where
  cameras : List CameraData
  camera_names : List String
  textures : List TextureData
  texture_names : List String
  materials : List MaterialData
  material_names : List String
  shapes : List ShapeData
  shape_names : List String
  instances : List InstanceData
  instance_names : List String
  copyright : String
deriving DecidableEq, Repr

/-- The default-constructed (empty) scene. -/
def emptyScene : SceneData := ⟨[], [], [], [], [], [], [], [], [], [], ""⟩

/-- The sentinel index `invalidid`. -/
def invalidid : Int := -1

/-- Default-constructed entity values.  The entity structs are declared in
`yocto_scene.h`, which is not part of this repository snapshot, so their
member initializers are kept as parameters; every theorem below is proved for
every choice of these defaults. -/
structure SceneDefaults where
  camera : CameraData
  material : MaterialData
  inst : InstanceData
  shapeBorder : Fl
deriving Repr

/-- The JSON document tree (`nlohmann::ordered_json`): object fields keep
their insertion order. -/
inductive Json where
  | null
  | bool (b : Bool)
  | num (q : Fl)
  | str (s : String)
  | arr (elems : List Json)
  | obj (fields : List (String × Json))

/-- First-match key lookup in an object's field list. -/
def lookupJ (k : String) : List (String × Json) → Option Json
  | [] => none
  | (k', v) :: r => if k' = k then some v else lookupJ k r

/-- `json.at(key)` / `json.contains(key)` support: the member of an object,
or `none` for non-objects. -/
def Json.memberGet (j : Json) (k : String) : Option Json :=
  match j with
  | .obj fs => lookupJ k fs
  | _ => none

/-- Range-`for` iteration over a `json` value: arrays yield their elements,
objects their field values, `null` yields nothing, and any primitive yields
itself once (nlohmann's iterator semantics). -/
def iterElems : Json → List Json
  | .null => []
  | .arr xs => xs
  | .obj fs => fs.map (fun p => p.2)
  | j => [j]

/-- `element.value(key, default)` for a string target: `none` models a thrown
`type_error` (element not an object, or present value not a string). -/
def getOptStr (e : Json) (k : String) (dflt : String) : Option String :=
  match e with
  | .obj fs =>
    match lookupJ k fs with
    | none => some dflt
    | some (.str s) => some s
    | some _ => none
  | _ => none

/-- `element.value(key, default)` for a float target. -/
def getOptNum (e : Json) (k : String) (dflt : Fl) : Option Fl :=
  match e with
  | .obj fs =>
    match lookupJ k fs with
    | none => some dflt
    | some (.num q) => some q
    | some _ => none
  | _ => none

/-- `element.value(key, default)` for a bool target. -/
def getOptBool (e : Json) (k : String) (dflt : Bool) : Option Bool :=
  match e with
  | .obj fs =>
    match lookupJ k fs with
    | none => some dflt
    | some (.bool b) => some b
    | some _ => none
  | _ => none

/-- `element.value(key, default)` for an int target: a JSON number is
converted by C-style truncation. -/
def getOptInt (e : Json) (k : String) (dflt : Int) : Option Int :=
  match e with
  | .obj fs =>
    match lookupJ k fs with
    | none => some dflt
    | some (.num q) => some (flTrunc q)
    | some _ => none
  | _ => none

/-- Decoding a JSON array into `array<float,3>`: the first three entries must
exist and be numbers (extra entries are ignored). -/
def decodeVec3 : List Json → Option Vec3
  | .num a :: .num b :: .num c :: _ => some ⟨a, b, c⟩
  | _ => none

/-- `element.value(key, default)` for a `vec3f` target. -/
def getOptVec3 (e : Json) (k : String) (dflt : Vec3) : Option Vec3 :=
  match e with
  | .obj fs =>
    match lookupJ k fs with
    | none => some dflt
    | some (.arr xs) => decodeVec3 xs
    | some _ => none
  | _ => none

/-- Decoding a JSON array into `array<float,12>` (a `frame3f`). -/
def decodeFrame : List Json → Option Frame3
  | .num a1 :: .num a2 :: .num a3 :: .num b1 :: .num b2 :: .num b3 ::
    .num c1 :: .num c2 :: .num c3 :: .num d1 :: .num d2 :: .num d3 :: _ =>
    some ⟨⟨a1, a2, a3⟩, ⟨b1, b2, b3⟩, ⟨c1, c2, c3⟩, ⟨d1, d2, d3⟩⟩
  | _ => none

/-- `element.value(key, default)` for a `frame3f` target. -/
def getOptFrame (e : Json) (k : String) (dflt : Frame3) : Option Frame3 :=
  match e with
  | .obj fs =>
    match lookupJ k fs with
    | none => some dflt
    | some (.arr xs) => decodeFrame xs
    | some _ => none
  | _ => none

/-- The `NLOHMANN_JSON_SERIALIZE_ENUM` conversion from JSON to
`material_type`: an unmatched value falls back to the first enumerator
(`matte`); it never throws. -/
def matTypeOfJson : Json → MaterialType
  | .str "matte" => .matte
  | .str "glossy" => .glossy
  | .str "reflective" => .reflective
  | .str "transparent" => .transparent
  | .str "refractive" => .refractive
  | .str "subsurface" => .subsurface
  | .str "volumetric" => .volumetric
  | .str "gltfpbr" => .gltfpbr
  | _ => .matte

/-- `element.value(key, default)` for a `material_type` target. -/
def getOptMatType (e : Json) (k : String) (dflt : MaterialType) :
    Option MaterialType :=
  match e with
  | .obj fs =>
    match lookupJ k fs with
    | none => some dflt
    | some v => some (matTypeOfJson v)
  | _ => none

/-- `element.value(key, default)` for the `(bool&)`-cast `line_end` target of
the inline `arrowN` fields. -/
def getOptEnd (e : Json) (k : String) (dflt : LineEnd) : Option LineEnd :=
  match e with
  | .obj fs =>
    match lookupJ k fs with
    | none => some dflt
    | some (.bool b) => some (lineEndOfBool b)
    | some _ => none
  | _ => none

/-- Parsing one element of the `cameras` group (`load_json_scene`): the
camera and its name are emplaced default-constructed, then the fields are
read in source order; a thrown read leaves the partially updated entity in
place (third component `false`). -/
def parseCamera (e : Json) (c0 : CameraData) : CameraData × String × Bool :=
  match getOptStr e "name" "" with
  | none => (c0, "", false)
  | some nm =>
  match getOptFrame e "frame" c0.frame with
  | none => (c0, nm, false)
  | some v1 =>
  let c1 := { c0 with frame := v1 }
  match getOptBool e "orthographic" c1.orthographic with
  | none => (c1, nm, false)
  | some v2 =>
  let c2 := { c1 with orthographic := v2 }
  match getOptNum e "lens" c2.lens with
  | none => (c2, nm, false)
  | some v3 =>
  let c3 := { c2 with lens := v3 }
  match getOptNum e "aspect" c3.aspect with
  | none => (c3, nm, false)
  | some v4 =>
  let c4 := { c3 with aspect := v4 }
  match getOptNum e "film" c4.film with
  | none => (c4, nm, false)
  | some v5 =>
  let c5 := { c4 with film := v5 }
  match getOptNum e "focus" c5.focus with
  | none => (c5, nm, false)
  | some v6 =>
  let c6 := { c5 with focus := v6 }
  match getOptNum e "aperture" c6.aperture with
  | none => (c6, nm, false)
  | some v7 => ({ c6 with aperture := v7 }, nm, true)

/-- Parsing one element of the `textures` group: only `name` and `uri` are
read; the texture itself stays default-constructed. -/
def parseTextureElem (e : Json) : String × String × Bool :=
  match getOptStr e "name" "" with
  | none => ("", "", false)
  | some nm =>
  match getOptStr e "uri" "" with
  | none => (nm, "", false)
  | some u => (nm, u, true)

/-- Parsing one element of the `materials` group, fields in source order. -/
def parseMaterial (e : Json) (m0 : MaterialData) : MaterialData × String × Bool :=
  match getOptStr e "name" "" with
  | none => (m0, "", false)
  | some nm =>
  match getOptMatType e "type" m0.type with
  | none => (m0, nm, false)
  | some v1 =>
  let m1 := { m0 with type := v1 }
  match getOptVec3 e "emission" m1.emission with
  | none => (m1, nm, false)
  | some v2 =>
  let m2 := { m1 with emission := v2 }
  match getOptVec3 e "color" m2.color with
  | none => (m2, nm, false)
  | some v3 =>
  let m3 := { m2 with color := v3 }
  match getOptNum e "metallic" m3.metallic with
  | none => (m3, nm, false)
  | some v4 =>
  let m4 := { m3 with metallic := v4 }
  match getOptNum e "roughness" m4.roughness with
  | none => (m4, nm, false)
  | some v5 =>
  let m5 := { m4 with roughness := v5 }
  match getOptNum e "ior" m5.ior with
  | none => (m5, nm, false)
  | some v6 =>
  let m6 := { m5 with ior := v6 }
  match getOptNum e "trdepth" m6.trdepth with
  | none => (m6, nm, false)
  | some v7 =>
  let m7 := { m6 with trdepth := v7 }
  match getOptVec3 e "scattering" m7.scattering with
  | none => (m7, nm, false)
  | some v8 =>
  let m8 := { m7 with scattering := v8 }
  match getOptNum e "scanisotropy" m8.scanisotropy with
  | none => (m8, nm, false)
  | some v9 =>
  let m9 := { m8 with scanisotropy := v9 }
  match getOptNum e "opacity" m9.opacity with
  | none => (m9, nm, false)
  | some v10 =>
  let m10 := { m9 with opacity := v10 }
  match getOptInt e "emission_tex" m10.emission_tex with
  | none => (m10, nm, false)
  | some v11 =>
  let m11 := { m10 with emission_tex := v11 }
  match getOptInt e "color_tex" m11.color_tex with
  | none => (m11, nm, false)
  | some v12 =>
  let m12 := { m11 with color_tex := v12 }
  match getOptInt e "roughness_tex" m12.roughness_tex with
  | none => (m12, nm, false)
  | some v13 =>
  let m13 := { m12 with roughness_tex := v13 }
  match getOptInt e "scattering_tex" m13.scattering_tex with
  | none => (m13, nm, false)
  | some v14 =>
  let m14 := { m13 with scattering_tex := v14 }
  match getOptInt e "normal_tex" m14.normal_tex with
  | none => (m14, nm, false)
  | some v15 => ({ m14 with normal_tex := v15 }, nm, true)

/-- Parsing one element of the `shapes` group.  Returns the shape, its name,
its (possibly rewritten) type tag, its uri and the auxiliary border value.
The auxiliary `type`/`uri`/`border` slots are emplaced (empty/zero) before
any field is read, exactly as in the source. -/
def parseShapeElem (d : SceneDefaults) (e : Json) :
    ShapeData × String × String × String × Fl × Bool :=
  let sh0 := defShape d.shapeBorder
  match getOptStr e "name" "" with
  | none => (sh0, "", "", "", flZero, false)
  | some nm =>
  match getOptStr e "type" "" with
  | none => (sh0, nm, "", "", flZero, false)
  | some ty =>
  if ty = "point" then
    let sA := { sh0 with positions := [v3Zero], radius := [flZero] }
    match getOptVec3 e "position" v3Zero with
    | none => (sA, nm, ty, "", flZero, false)
    | some p =>
    let sB := { sh0 with positions := [p], radius := [flZero] }
    match getOptNum e "radius" flZero with
    | none => (sB, nm, ty, "", flZero, false)
    | some r =>
      ({ sh0 with positions := [p], radius := [r], points := [0] },
        nm, ty, "", flZero, true)
  else if ty = "line" then
    let sA := { sh0 with positions := [v3Zero], radius := [flZero],
                         ends := [.cap] }
    match getOptVec3 e "position1" v3Zero with
    | none => (sA, nm, ty, "", flZero, false)
    | some p1 =>
    let sB := { sA with positions := [p1] }
    match getOptNum e "radius1" flZero with
    | none => (sB, nm, ty, "", flZero, false)
    | some r1 =>
    let sC := { sB with radius := [r1] }
    match getOptEnd e "arrow1" .cap with
    | none => (sC, nm, ty, "", flZero, false)
    | some e1 =>
    let sD := { sh0 with positions := [p1, v3Zero], radius := [r1, flZero],
                         ends := [e1, .cap] }
    match getOptVec3 e "position2" v3Zero with
    | none => (sD, nm, ty, "", flZero, false)
    | some p2 =>
    let sE := { sD with positions := [p1, p2] }
    match getOptNum e "radius2" flZero with
    | none => (sE, nm, ty, "", flZero, false)
    | some r2 =>
    let sF := { sE with radius := [r1, r2] }
    match getOptEnd e "arrow2" .cap with
    | none => (sF, nm, ty, "", flZero, false)
    | some e2 =>
      ({ sF with ends := [e1, e2], lines := [(0, 1)] }, nm, ty, "", flZero, true)
  else if ty = "triangle" then
    let sA := { sh0 with positions := [v3Zero] }
    match getOptVec3 e "position1" v3Zero with
    | none => (sA, nm, ty, "", flZero, false)
    | some p1 =>
    let sB := { sh0 with positions := [p1, v3Zero] }
    match getOptVec3 e "position2" v3Zero with
    | none => (sB, nm, ty, "", flZero, false)
    | some p2 =>
    let sC := { sh0 with positions := [p1, p2, v3Zero] }
    match getOptVec3 e "position3" v3Zero with
    | none => (sC, nm, ty, "", flZero, false)
    | some p3 =>
    let sD := { sh0 with positions := [p1, p2, p3], triangles := [(0, 1, 2)] }
    match getOptNum e "border_size" sD.border_radius with
    | none => (sD, nm, ty, "", flZero, false)
    | some b => ({ sD with border_radius := b }, nm, ty, "", flZero, true)
  else if ty = "quad" then
    let sA := { sh0 with positions := [v3Zero] }
    match getOptVec3 e "position1" v3Zero with
    | none => (sA, nm, ty, "", flZero, false)
    | some p1 =>
    let sB := { sh0 with positions := [p1, v3Zero] }
    match getOptVec3 e "position2" v3Zero with
    | none => (sB, nm, ty, "", flZero, false)
    | some p2 =>
    let sC := { sh0 with positions := [p1, p2, v3Zero] }
    match getOptVec3 e "position3" v3Zero with
    | none => (sC, nm, ty, "", flZero, false)
    | some p3 =>
    let sD := { sh0 with positions := [p1, p2, p3, v3Zero] }
    match getOptVec3 e "position4" v3Zero with
    | none => (sD, nm, ty, "", flZero, false)
    | some p4 =>
    let sE := { sh0 with positions := [p1, p2, p3, p4],
                         quads := [(0, 1, 2, 3)] }
    match getOptNum e "border_size" sE.border_radius with
    | none => (sE, nm, ty, "", flZero, false)
    | some b => ({ sE with border_radius := b }, nm, ty, "", flZero, true)
  else
    match getOptStr e "uri" "" with
    | none => (sh0, nm, "uri", "", flZero, false)
    | some u =>
    match getOptNum e "border_size" flZero with
    | none => (sh0, nm, "uri", u, flZero, false)
    | some b => (sh0, nm, "uri", u, b, true)

/-- Parsing one element of the `instances` group, fields in source order. -/
def parseInstanceElem (e : Json) (i0 : InstanceData) :
    InstanceData × String × Bool :=
  match getOptStr e "name" "" with
  | none => (i0, "", false)
  | some nm =>
  match getOptFrame e "frame" i0.frame with
  | none => (i0, nm, false)
  | some v1 =>
  let i1 := { i0 with frame := v1 }
  match getOptInt e "shape" i1.shape with
  | none => (i1, nm, false)
  | some v2 =>
  let i2 := { i1 with shape := v2 }
  match getOptInt e "material" i2.material with
  | none => (i2, nm, false)
  | some v3 =>
  let i3 := { i2 with material := v3 }
  match getOptInt e "border_material" i3.border_material with
  | none => (i3, nm, false)
  | some v4 => ({ i3 with border_material := v4 }, nm, true)

/-- Group loop for `cameras`: elements are appended one by one; a failed
element is appended in its partial state and parsing stops. -/
def parseCamerasGo (d : SceneDefaults) : List Json → SceneData → SceneData × Bool
  | [], s => (s, true)
  | e :: r, s =>
    let p := parseCamera e d.camera
    let s' := { s with cameras := s.cameras ++ [p.1],
                       camera_names := s.camera_names ++ [p.2.1] }
    if p.2.2 then parseCamerasGo d r s' else (s', false)

/-- Parse state: the scene plus the local `shape_types` / `shape_filenames` /
`shape_borders` / `texture_filenames` vectors of `load_json_scene`. -/
structure ParseSt where
  scene : SceneData
  shapeTypes : List String
  shapeUris : List String
  shapeBorders : List Fl
  texUris : List String
deriving Repr

/-- Group loop for `textures`. -/
def parseTexturesGo : List Json → ParseSt → ParseSt × Bool
  | [], st => (st, true)
  | e :: r, st =>
    let p := parseTextureElem e
    let st' := { st with
      scene := { st.scene with
        textures := st.scene.textures ++ [defTexture],
        texture_names := st.scene.texture_names ++ [p.1] },
      texUris := st.texUris ++ [p.2.1] }
    if p.2.2 then parseTexturesGo r st' else (st', false)

/-- Group loop for `materials`. -/
def parseMaterialsGo (d : SceneDefaults) : List Json → SceneData → SceneData × Bool
  | [], s => (s, true)
  | e :: r, s =>
    let p := parseMaterial e d.material
    let s' := { s with materials := s.materials ++ [p.1],
                       material_names := s.material_names ++ [p.2.1] }
    if p.2.2 then parseMaterialsGo d r s' else (s', false)

/-- Group loop for `shapes`. -/
def parseShapesGo (d : SceneDefaults) : List Json → ParseSt → ParseSt × Bool
  | [], st => (st, true)
  | e :: r, st =>
    let p := parseShapeElem d e
    let st' := { st with
      scene := { st.scene with
        shapes := st.scene.shapes ++ [p.1],
        shape_names := st.scene.shape_names ++ [p.2.1] },
      shapeTypes := st.shapeTypes ++ [p.2.2.1],
      shapeUris := st.shapeUris ++ [p.2.2.2.1],
      shapeBorders := st.shapeBorders ++ [p.2.2.2.2.1] }
    if p.2.2.2.2.2 then parseShapesGo d r st' else (st', false)

/-- Group loop for `instances`. -/
def parseInstancesGo (d : SceneDefaults) : List Json → SceneData → SceneData × Bool
  | [], s => (s, true)
  | e :: r, s =>
    let p := parseInstanceElem e d.inst
    let s' := { s with instances := s.instances ++ [p.1],
                       instance_names := s.instance_names ++ [p.2.1] }
    if p.2.2 then parseInstancesGo d r s' else (s', false)

/-- The outer version gate of `load_json_scene` (lines 1452-1454): the
document must contain `asset.version` and it must compare equal to the JSON
string `"4.2"`; any other value — including `"5.0"` — fails here.  This gate
returns `false` from the function without touching the error string. -/
def versionGate (j : Json) : Bool :=
  match j.memberGet "asset" with
  | none => false
  | some a =>
    match a.memberGet "version" with
    | some (.str v) => v = "4.2"
    | _ => false

/-- The `asset` group body inside the `try` block: `copyright` is read into
the scene, then `version` is re-read and checked against `"4.2"`/`"5.0"`
(unreachable as a failure, since the outer gate already required `"4.2"`). -/
def assetStep (j : Json) (st : ParseSt) : ParseSt × Bool :=
  match j.memberGet "asset" with
  | none => (st, true)
  | some a =>
    match getOptStr a "copyright" st.scene.copyright with
    | none => (st, false)
    | some cp =>
      let st' := { st with scene := { st.scene with copyright := cp } }
      match getOptStr a "version" "" with
      | none => (st', false)
      | some v => if v = "4.2" ∨ v = "5.0" then (st', true) else (st', false)

/-- The parsing phase of `load_json_scene`: all groups in source order, with
the C++ `try`/`catch` modelled by the boolean flag (a `false` carries the
partially filled state out to the `parse_error` handler). -/
def camerasStep (d : SceneDefaults) (j : Json) (st : ParseSt) : ParseSt × Bool :=
  match j.memberGet "cameras" with
  | none => (st, true)
  | some g =>
    let q := parseCamerasGo d (iterElems g) st.scene
    ({ st with scene := q.1 }, q.2)

def texturesStep (j : Json) (st : ParseSt) : ParseSt × Bool :=
  match j.memberGet "textures" with
  | none => (st, true)
  | some g => parseTexturesGo (iterElems g) st

def materialsStep (d : SceneDefaults) (j : Json) (st : ParseSt) : ParseSt × Bool :=
  match j.memberGet "materials" with
  | none => (st, true)
  | some g =>
    let q := parseMaterialsGo d (iterElems g) st.scene
    ({ st with scene := q.1 }, q.2)

def shapesStep (d : SceneDefaults) (j : Json) (st : ParseSt) : ParseSt × Bool :=
  match j.memberGet "shapes" with
  | none => (st, true)
  | some g => parseShapesGo d (iterElems g) st

def instancesStep (d : SceneDefaults) (j : Json) (st : ParseSt) : ParseSt × Bool :=
  match j.memberGet "instances" with
  | none => (st, true)
  | some g =>
    let q := parseInstancesGo d (iterElems g) st.scene
    ({ st with scene := q.1 }, q.2)

def parseGroups (d : SceneDefaults) (j : Json) (s0 : SceneData) : ParseSt × Bool :=
  let st0 : ParseSt := ⟨s0, [], [], [], []⟩
  let r1 := assetStep j st0
  if r1.2 then
    let r2 := camerasStep d j r1.1
    if r2.2 then
      let r3 := texturesStep j r2.1
      if r3.2 then
        let r4 := materialsStep d j r3.1
        if r4.2 then
          let r5 := shapesStep d j r4.1
          if r5.2 then
            let r6 := instancesStep d j r5.1
            if r6.2 then (r6.1, true) else (r6.1, false)
          else (r5.1, false)
        else (r4.1, false)
      else (r3.1, false)
    else (r2.1, false)
  else (r1.1, false)

/-- Splitting a character list at a separator (kernel-computable analogue
of `String.splitOn` for a single-character separator). -/
def splitOnChar (c : Char) : List Char → List (List Char)
  | [] => [[]]
  | x :: r =>
    match splitOnChar c r with
    | [] => [[x]]
    | h :: t => if x = c then [] :: h :: t else (x :: h) :: t

/-- Generic `std::filesystem`-style path pieces on generic (`/`-separated)
paths: the extension (including the dot) of the last component; a lone
leading dot (a dotfile) and the `.`/`..` components have no extension. -/
def pathExtension (s : String) : String :=
  let base := (splitOnChar '/' s.data).getLastD []
  if base = ['.'] ∨ base = ['.', '.'] then ""
  else
    match base with
    | [] => ""
    | c0 :: rest =>
      if rest.contains '.' then
        String.mk ('.' :: ((c0 :: rest).reverse.takeWhile (fun c => c ≠ '.')).reverse)
      else ""

/-- Joining path components with slashes. -/
def joinSlash : List (List Char) → List Char
  | [] => []
  | [x] => x
  | x :: r => x ++ '/' :: joinSlash r

/-- The directory part of a path (no trailing slash). -/
def pathDirname (s : String) : String :=
  let parts := splitOnChar '/' s.data
  if parts.length ≤ 1 then "" else String.mk (joinSlash parts.dropLast)

/-- `path_join`: `std::filesystem` concatenation on generic paths. -/
def pathJoin (a b : String) : String := if a = "" then b else a ++ "/" ++ b

/-- Sequential (`noparallel`) shape resource loading: for every parsed shape
of type `"uri"` the referenced mesh file is loaded (the loader `sl` models
`load_shape`, which resets the output shape before doing anything, hence the
failed slot holds a default-constructed shape) and the shape's
`border_radius` is overwritten with the parsed `border_size`.  On the first
failure the loop stops and returns the error. -/
def loadShapesSeq (d : SceneDefaults) (sl : String → Except String ShapeData)
    (dirname : String) :
    List String → List String → List Fl → List ShapeData →
    List ShapeData × Option String
  | t :: ts, u :: us, b :: bs, sh :: shs =>
    if t = "uri" then
      match sl (pathJoin dirname u) with
      | .error e => (defShape d.shapeBorder :: shs, some e)
      | .ok s2 =>
        let r := loadShapesSeq d sl dirname ts us bs shs
        ({ s2 with border_radius := b } :: r.1, r.2)
    else
      let r := loadShapesSeq d sl dirname ts us bs shs
      (sh :: r.1, r.2)
  | _, _, _, shs => (shs, none)

/-- Sequential (`noparallel`) texture resource loading: every texture is
loaded from its uri; on failure the slot keeps its previous content. -/
def loadTexturesSeq (tl : String → Except String TextureData)
    (dirname : String) :
    List String → List TextureData → List TextureData × Option String
  | u :: us, t :: ts =>
    (match tl (pathJoin dirname u) with
     | .error e => (t :: ts, some e)
     | .ok t2 =>
       let r := loadTexturesSeq tl dirname us ts
       (t2 :: r.1, r.2))
  | _, ts => (ts, none)

/-- The fixed default radius of `add_missing_radius` (the C++ default
argument `radius = 0.001f`). -/
def defaultRadiusConst : Fl := ⟨1, 1000⟩

/-- `add_missing_camera`: when no camera exists, one is synthesized with the
fixed parameters of the source and a frame/focus computed from the scene's
bounding box; that all-float computation (`compute_bounds`, `lookat_frame`,
defined in headers outside this snapshot) is abstracted as the parameter
`fr`. -/
def add_missing_camera (fr : SceneData → Frame3 × Fl) (s : SceneData) : SceneData :=
  match s.cameras with
  | _ :: _ => s
  | [] =>
    let fc := fr s
    let cam : CameraData :=
      { frame := fc.1, orthographic := false, lens := ⟨50, 1000⟩,
        aspect := ⟨16, 9⟩, film := ⟨36, 1000⟩, focus := fc.2,
        aperture := flZero }
    { s with camera_names := s.camera_names ++ ["camera"],
             cameras := s.cameras ++ [cam] }

/-- The per-shape step of `add_missing_radius`. -/
def addRadiusShape (sh : ShapeData) : ShapeData :=
  if sh.points = [] ∧ sh.lines = [] then sh
  else if sh.radius ≠ [] then sh
  else { sh with radius := List.replicate sh.positions.length defaultRadiusConst }

/-- `add_missing_radius` (with the default radius argument). -/
def add_missing_radius (s : SceneData) : SceneData :=
  { s with shapes := s.shapes.map addRadiusShape }

/-- The per-shape step of `add_missing_caps`. -/
def addCapsShape (sh : ShapeData) : ShapeData :=
  if sh.lines ≠ [] ∧ sh.ends = [] then
    { sh with ends := List.replicate sh.positions.length LineEnd.cap }
  else sh

/-- `add_missing_caps`. -/
def add_missing_caps (s : SceneData) : SceneData :=
  { s with shapes := s.shapes.map addCapsShape }

/-- The default gray matte material fabricated by `add_missing_material`:
a default-constructed material with `color = {0.8, 0.8, 0.8}`. -/
def grayMaterial (d : SceneDefaults) : MaterialData :=
  { d.material with color := ⟨⟨8, 10⟩, ⟨8, 10⟩, ⟨8, 10⟩⟩ }

/-- The instance loop of `add_missing_material`: `dm` is the local
`default_material` handle (starting at `invalidid`). -/
def addMaterialGo (d : SceneDefaults) :
    List InstanceData → List MaterialData → Int →
    List InstanceData × List MaterialData
  | [], mats, _ => ([], mats)
  | i :: rest, mats, dm =>
    if 0 ≤ i.material then
      let r := addMaterialGo d rest mats dm
      (i :: r.1, r.2)
    else
      if dm = invalidid then
        let mats' := mats ++ [grayMaterial d]
        let dm' : Int := (mats'.length : Int) - 1
        let r := addMaterialGo d rest mats' dm'
        ({ i with material := dm' } :: r.1, r.2)
      else
        let r := addMaterialGo d rest mats dm
        ({ i with material := dm } :: r.1, r.2)

/-- `add_missing_material`: every instance with a negative material index is
pointed at a shared default gray matte material, created lazily at most
once. -/
def add_missing_material (d : SceneDefaults) (s : SceneData) : SceneData :=
  let r := addMaterialGo d s.instances s.materials invalidid
  { s with instances := r.1, materials := r.2 }

/-- `trim_memory` only shrinks vector capacities; it does not change any
observable value, so it is the identity on the modelled state. -/
def trim_memory (s : SceneData) : SceneData := s

/-- The Consistency Repair pass in the fixed order of the specification:
`add_missing_camera`, `add_missing_radius`, `add_missing_caps`,
`add_missing_material`, `trim_memory`. -/
def repairPass (d : SceneDefaults) (fr : SceneData → Frame3 × Fl)
    (s : SceneData) : SceneData :=
  trim_memory (add_missing_material d
    (add_missing_caps (add_missing_radius (add_missing_camera fr s))))

/-- `load_json_scene`, sequential (`noparallel`) resource mode, starting from
the already-parsed document tree `j` of file `filename` (text reading and
JSON tokenization are external).  `scene0`/`err0` are the caller's
by-reference `scene`/`error` arguments.  Note that the fix block at the end
runs `add_missing_camera`, `add_missing_radius`, `add_missing_caps` and
`trim_memory` but not `add_missing_material`. -/
def load_json_scene (d : SceneDefaults) (fr : SceneData → Frame3 × Fl)
    (sl : String → Except String ShapeData)
    (tl : String → Except String TextureData)
    (filename : String) (j : Json) (scene0 : SceneData) (err0 : String) :
    Bool × SceneData × String :=
  if versionGate j = false then (false, scene0, err0)
  else
    let pg := parseGroups d j scene0
    if pg.2 = false then (false, pg.1.scene, "cannot parse " ++ filename)
    else
      let st := pg.1
      let dirname := pathDirname filename
      let rs := loadShapesSeq d sl dirname st.shapeTypes st.shapeUris
        st.shapeBorders st.scene.shapes
      match rs.2 with
      | some e =>
        (false, { st.scene with shapes := rs.1 },
          "cannot load " ++ filename ++ " since " ++ e)
      | none =>
        let s1 := { st.scene with shapes := rs.1 }
        let rt := loadTexturesSeq tl dirname st.texUris s1.textures
        match rt.2 with
        | some e =>
          (false, { s1 with textures := rt.1 },
            "cannot load " ++ filename ++ " since " ++ e)
        | none =>
          let s2 := { s1 with textures := rt.1 }
          let s3 := trim_memory (add_missing_caps
            (add_missing_radius (add_missing_camera fr s2)))
          (true, s3, err0)

/-- The `load_scene` dispatcher (non-throwing variant): only `.json`/`.JSON`
documents are accepted; anything else fails with an unsupported-format
message naming the path. -/
def load_scene (d : SceneDefaults) (fr : SceneData → Frame3 × Fl)
    (sl : String → Except String ShapeData)
    (tl : String → Except String TextureData)
    (filename : String) (j : Json) (scene0 : SceneData) (err0 : String) :
    Bool × SceneData × String :=
  let ext := pathExtension filename
  if ext = ".json" ∨ ext = ".JSON" then
    load_json_scene d fr sl tl filename j scene0 err0
  else (false, scene0, "unsupported format " ++ filename)

/-- `set_val(json, name, value, default)`: the field is written only when
the value differs from the default. -/
def mkF [DecidableEq α] (k : String) (enc : α → Json) (v dflt : α) :
    List (String × Json) :=
  if v = dflt then [] else [(k, enc v)]

/-- Encoding an `int` field. -/
def encInt (i : Int) : Json := .num ⟨i, 1⟩

/-- Encoding a `vec3f` field. -/
def encVec3 (v : Vec3) : Json := .arr [.num v.x, .num v.y, .num v.z]

/-- Encoding a `frame3f` field (the `array<float,12>` layout). -/
def encFrame (f : Frame3) : Json :=
  .arr [.num f.x.x, .num f.x.y, .num f.x.z, .num f.y.x, .num f.y.y,
        .num f.y.z, .num f.z.x, .num f.z.y, .num f.z.z, .num f.o.x,
        .num f.o.y, .num f.o.z]

/-- The `NLOHMANN_JSON_SERIALIZE_ENUM` string of each `material_type`. -/
def matTypeStr : MaterialType → String
  | .matte => "matte"
  | .glossy => "glossy"
  | .reflective => "reflective"
  | .transparent => "transparent"
  | .refractive => "refractive"
  | .subsurface => "subsurface"
  | .volumetric => "volumetric"
  | .gltfpbr => "gltfpbr"

/-- Encoding a `material_type` field. -/
def encMatType (t : MaterialType) : Json := .str (matTypeStr t)

/-- The saved JSON element for one camera (fields in source order, each
elided when equal to the default). -/
def camElem (nm : String) (c dc : CameraData) : Json :=
  .obj (mkF "name" Json.str nm "" ++
    (mkF "frame" encFrame c.frame dc.frame ++
    (mkF "orthographic" Json.bool c.orthographic dc.orthographic ++
    (mkF "lens" Json.num c.lens dc.lens ++
    (mkF "aspect" Json.num c.aspect dc.aspect ++
    (mkF "film" Json.num c.film dc.film ++
    (mkF "focus" Json.num c.focus dc.focus ++
     mkF "aperture" Json.num c.aperture dc.aperture)))))))

/-- The saved JSON element for one texture (name and generated uri). -/
def texElem (nm uri : String) : Json :=
  .obj (mkF "name" Json.str nm "" ++ mkF "uri" Json.str uri "")

/-- The saved JSON element for one material. -/
def matElem (nm : String) (m dm : MaterialData) : Json :=
  .obj (mkF "name" Json.str nm "" ++
    (mkF "type" encMatType m.type dm.type ++
    (mkF "emission" encVec3 m.emission dm.emission ++
    (mkF "color" encVec3 m.color dm.color ++
    (mkF "metallic" Json.num m.metallic dm.metallic ++
    (mkF "roughness" Json.num m.roughness dm.roughness ++
    (mkF "ior" Json.num m.ior dm.ior ++
    (mkF "trdepth" Json.num m.trdepth dm.trdepth ++
    (mkF "scattering" encVec3 m.scattering dm.scattering ++
    (mkF "scanisotropy" Json.num m.scanisotropy dm.scanisotropy ++
    (mkF "opacity" Json.num m.opacity dm.opacity ++
    (mkF "emission_tex" encInt m.emission_tex dm.emission_tex ++
    (mkF "color_tex" encInt m.color_tex dm.color_tex ++
    (mkF "roughness_tex" encInt m.roughness_tex dm.roughness_tex ++
    (mkF "scattering_tex" encInt m.scattering_tex dm.scattering_tex ++
     mkF "normal_tex" encInt m.normal_tex dm.normal_tex)))))))))))))))

/-- The saved JSON element for one shape (name and generated uri only; in
particular `border_size` is never written back). -/
def shapeElemJ (nm uri : String) : Json :=
  .obj (mkF "name" Json.str nm "" ++ mkF "uri" Json.str uri "")

/-- The saved JSON element for one instance: name, frame, shape and material
only — `border_material` is never written. -/
def instElem (nm : String) (i di : InstanceData) : Json :=
  .obj (mkF "name" Json.str nm "" ++
    (mkF "frame" encFrame i.frame di.frame ++
    (mkF "shape" encInt i.shape di.shape ++
     mkF "material" encInt i.material di.material)))

/-- Camera group serialization (`get_name` walks the name array, yielding
`""` past its end). -/
def saveCamsJ (dc : CameraData) : List CameraData → List String → List Json
  | [], _ => []
  | c :: cs, n :: ns => camElem n c dc :: saveCamsJ dc cs ns
  | c :: cs, [] => camElem "" c dc :: saveCamsJ dc cs []

/-- Texture group serialization, driven by the generated filename list. -/
def saveTexsJ : List String → List String → List Json
  | [], _ => []
  | f :: fs, n :: ns => texElem n f :: saveTexsJ fs ns
  | f :: fs, [] => texElem "" f :: saveTexsJ fs []

/-- Material group serialization. -/
def saveMatsJ (dm : MaterialData) : List MaterialData → List String → List Json
  | [], _ => []
  | m :: ms, n :: ns => matElem n m dm :: saveMatsJ dm ms ns
  | m :: ms, [] => matElem "" m dm :: saveMatsJ dm ms []

/-- Shape group serialization, driven by the generated filename list. -/
def saveShapesJ : List String → List String → List Json
  | [], _ => []
  | f :: fs, n :: ns => shapeElemJ n f :: saveShapesJ fs ns
  | f :: fs, [] => shapeElemJ "" f :: saveShapesJ fs []

/-- Instance group serialization. -/
def saveInstsJ (di : InstanceData) : List InstanceData → List String → List Json
  | [], _ => []
  | i :: is, n :: ns => instElem n i di :: saveInstsJ di is ns
  | i :: is, [] => instElem "" i di :: saveInstsJ di is []

/-- `get_filename` for shapes: `shapes/<name>.ply`, or `shapes/shape<idx>.ply`
past the end of the name array. -/
def shapeFilenamesGo : Nat → List ShapeData → List String → List String
  | _, [], _ => []
  | idx, _ :: ss, n :: ns =>
    ("shapes/" ++ (n ++ ".ply")) :: shapeFilenamesGo (idx + 1) ss ns
  | idx, _ :: ss, [] =>
    ("shapes/" ++ ("shape" ++ (toString idx ++ ".ply"))) ::
      shapeFilenamesGo (idx + 1) ss []

/-- The texture extension chosen on save: `.png` when only byte pixels are
present, `.hdr` otherwise. -/
def texExtFor (t : TextureData) : String :=
  if t.pixelsf = [] then ".png" else ".hdr"

/-- `get_filename` for textures: `textures/<name><ext>`, or
`textures/texture<idx><ext>` past the end of the name array. -/
def texFilenamesGo : Nat → List TextureData → List String → List String
  | _, [], _ => []
  | idx, t :: ts, n :: ns =>
    ("textures/" ++ (n ++ texExtFor t)) :: texFilenamesGo (idx + 1) ts ns
  | idx, t :: ts, [] =>
    ("textures/" ++ ("texture" ++ (toString idx ++ texExtFor t))) ::
      texFilenamesGo (idx + 1) ts []

/-- Generated shape side-file names of a scene. -/
def shapeFilenames (S : SceneData) : List String :=
  shapeFilenamesGo 0 S.shapes S.shape_names

/-- Generated texture side-file names of a scene. -/
def texFilenames (S : SceneData) : List String :=
  texFilenamesGo 0 S.textures S.texture_names

/-- The JSON document produced by `save_json_scene`: the `asset` object
(copyright elided when empty, generator and version always written), then
one group per non-empty entity collection. -/
def saveDoc (d : SceneDefaults) (S : SceneData) : Json :=
  .obj ([("asset", .obj (mkF "copyright" Json.str S.copyright "" ++
           [("generator", .str "Yocto/GL - https://github.com/xelatihy/yocto-gl"),
            ("version", .str "4.2")]))] ++
    ((if S.cameras = [] then []
      else [("cameras", .arr (saveCamsJ d.camera S.cameras S.camera_names))]) ++
    ((if S.textures = [] then []
      else [("textures", .arr (saveTexsJ (texFilenames S) S.texture_names))]) ++
    ((if S.materials = [] then []
      else [("materials",
        .arr (saveMatsJ d.material S.materials S.material_names))]) ++
    ((if S.shapes = [] then []
      else [("shapes", .arr (saveShapesJ (shapeFilenames S) S.shape_names))]) ++
     (if S.instances = [] then []
      else [("instances",
        .arr (saveInstsJ d.inst S.instances S.instance_names))]))))))

/-- The content of a written PLY side file: exactly the arrays `save_shape`
hands to the PLY writer (positions, normals, texcoords, colors, radius,
faces, lines, points — line end-caps, tangents and the border radius are not
among them). -/
structure PlyFile where
  positions : List Vec3
  normals : List Vec3
  texcoords : List Vec2
  colors : List Vec4
  radius : List Fl
  triangles : List (Int × Int × Int)
  quads : List (Int × Int × Int × Int)
  lines : List (Int × Int)
  points : List Int
deriving DecidableEq, Repr

/-- The PLY file written for a shape by `save_shape`. -/
def plyOfShape (sh : ShapeData) : PlyFile :=
  ⟨sh.positions, sh.normals, sh.texcoords, sh.colors, sh.radius,
   sh.triangles, sh.quads, sh.lines, sh.points⟩

/-- The shape read back by `load_shape` from a PLY file (the output shape is
reset first, so every field not stored in the file is default). -/
def shapeOfPly (d : SceneDefaults) (p : PlyFile) : ShapeData :=
  { defShape d.shapeBorder with
    positions := p.positions, normals := p.normals, texcoords := p.texcoords,
    colors := p.colors, radius := p.radius, triangles := p.triangles,
    quads := p.quads, lines := p.lines, points := p.points }

/-- The content of a written image side file, tagged by codec. -/
inductive TexFile where
  | hdr (w h : Int) (px : List Vec4)
  | exr (w h : Int) (px : List Vec4)
  | png (w h : Int) (px : List Vec4b)
  | jpg (w h : Int) (px : List Vec4b)
  | tga (w h : Int) (px : List Vec4b)
  | bmp (w h : Int) (px : List Vec4b)

/-- `is_hdr_filename`: note the comparison is against the lowercase
spellings only. -/
def is_hdr_filename (fn : String) : Bool :=
  let e := pathExtension fn
  e = ".hdr" || e = ".exr" || e = ".pfm"

/-- `is_ldr_filename`: lowercase spellings only. -/
def is_ldr_filename (fn : String) : Bool :=
  let e := pathExtension fn
  e = ".png" || e = ".jpg" || e = ".jpeg" || e = ".bmp" || e = ".tga"

/-- The result of `save_texture`: `thrown` models the
`std::invalid_argument` hard failure of the representation guard, `fail` the
ordinary `false` return with an error message, `ok` a written file (the
external byte encoders are modelled as succeeding on the handed pixels). -/
inductive TexSave where
  | thrown (msg : String)
  | fail (msg : String)
  | ok (f : TexFile)

/-- `save_texture`: the representation guard (which throws), then dispatch
on the extension; each branch writes the pixel buffer of its own
representation, converting nothing. -/
def save_texture (filename : String) (t : TextureData) : TexSave :=
  if t.pixelsf ≠ [] ∧ is_ldr_filename filename then
    .thrown ("cannot save hdr texture to ldr file " ++ filename)
  else if t.pixelsb ≠ [] ∧ is_hdr_filename filename then
    .thrown ("cannot save ldr texture to hdr file " ++ filename)
  else
    let e := pathExtension filename
    if e = ".hdr" ∨ e = ".HDR" then .ok (.hdr t.width t.height t.pixelsf)
    else if e = ".exr" ∨ e = ".EXR" then .ok (.exr t.width t.height t.pixelsf)
    else if e = ".png" ∨ e = ".PNG" then .ok (.png t.width t.height t.pixelsb)
    else if e = ".jpg" ∨ e = ".JPG" ∨ e = ".jpeg" ∨ e = ".JPEG" then
      .ok (.jpg t.width t.height t.pixelsb)
    else if e = ".tga" ∨ e = ".TGA" then .ok (.tga t.width t.height t.pixelsb)
    else if e = ".bmp" ∨ e = ".BMP" then .ok (.bmp t.width t.height t.pixelsb)
    else .fail ("unsupported format " ++ filename)

/-- An error escaping the texture-saving loop of `save_json_scene`: a thrown
guard violation, or an ordinary error return. -/
inductive SaveErr where
  | thrown (msg : String)
  | err (msg : String)

/-- The (sequential) texture-saving loop of `save_json_scene`. -/
def saveTexFilesGo : List String → List TextureData →
    List (String × TexFile) × Option SaveErr
  | f :: fs, t :: ts =>
    (match save_texture f t with
     | .thrown m => ([], some (.thrown m))
     | .fail m => ([], some (.err m))
     | .ok file =>
       let r := saveTexFilesGo fs ts
       ((f, file) :: r.1, r.2))
  | _, _ => ([], none)

/-- The outcome of `save_json_scene`: the document plus the written side
files, a propagated `std::invalid_argument`, or an error return. -/
inductive SaveOut where
  | ok (doc : Json) (shapeFiles : List (String × PlyFile))
      (texFiles : List (String × TexFile))
  | thrown (msg : String)
  | failed (msg : String)

/-- `save_json_scene` (sequential mode): build the document, write it, then
write every shape and texture side file under the document's directory. -/
def saveJsonScene (d : SceneDefaults) (filename : String) (S : SceneData) :
    SaveOut :=
  let doc := saveDoc d S
  let dirname := pathDirname filename
  let sFiles := List.zip ((shapeFilenames S).map (pathJoin dirname))
    (S.shapes.map plyOfShape)
  let rt := saveTexFilesGo ((texFilenames S).map (pathJoin dirname)) S.textures
  match rt.2 with
  | none => .ok doc sFiles rt.1
  | some (.thrown m) => .thrown m
  | some (.err m) => .failed ("cannot save " ++ filename ++ " since " ++ m)

/-- First-match lookup in a written file list. -/
def findFS (p : String) : List (String × α) → Option α
  | [] => none
  | (p', c) :: r => if p' = p then some c else findFS p r

/-- `load_shape` over a file system holding the written PLY side files: the
extension dispatch of `load_shape`, the empty-shape rejection, and the PLY
reader boundary. -/
def shapeLoaderOf (d : SceneDefaults) (files : List (String × PlyFile)) :
    String → Except String ShapeData :=
  fun p =>
    let e := pathExtension p
    if e = ".ply" ∨ e = ".PLY" then
      match findFS p files with
      | none => .error ("cannot open " ++ p)
      | some ply =>
        if ply.points = [] ∧ ply.lines = [] ∧ ply.triangles = [] ∧
           ply.quads = [] then .error ("empty shape " ++ p)
        else .ok (shapeOfPly d ply)
    else if e = ".obj" ∨ e = ".OBJ" ∨ e = ".stl" ∨ e = ".STL" then
      .error ("cannot open " ++ p)
    else .error ("unsupported format " ++ p)

/-- `load_texture` over a file system holding the written image side files:
extension dispatch, then the decoder boundary; an `.hdr` file yields linear
float pixels, a `.png` file encoded byte pixels (the untouched fields keep
the default-constructed values). -/
def texLoaderOf (files : List (String × TexFile)) :
    String → Except String TextureData :=
  fun p =>
    let e := pathExtension p
    if e = ".hdr" ∨ e = ".HDR" then
      match findFS p files with
      | some (.hdr w h px) =>
        .ok { width := w, height := h, linear := true, pixelsf := px,
              pixelsb := [] }
      | some _ => .error ("cannot raed " ++ p)
      | none => .error ("cannot open " ++ p)
    else if e = ".png" ∨ e = ".PNG" then
      match findFS p files with
      | some (.png w h px) =>
        .ok { width := w, height := h, linear := false, pixelsf := [],
              pixelsb := px }
      | some _ => .error ("cannot raed " ++ p)
      | none => .error ("cannot open " ++ p)
    else .error ("unsupported format " ++ p)

/-- The round trip at the document boundary: `save_json_scene` into an empty
directory, then `load_json_scene` of the written document over the written
side files, starting from a default-constructed scene. -/
def roundTrip (d : SceneDefaults) (fr : SceneData → Frame3 × Fl)
    (filename : String) (S : SceneData) : Bool × SceneData × String :=
  match saveJsonScene d filename S with
  | .ok doc sf tf =>
    load_json_scene d fr (shapeLoaderOf d sf) (texLoaderOf tf) filename doc
      emptyScene ""
  | .thrown m => (false, emptyScene, m)
  | .failed m => (false, emptyScene, m)

/-- Image codecs recognized by the image/texture loaders. -/
inductive ImgFmt where
  | exr
  | hdr
  | png
  | jpg
  | tga
  | bmp
  | preset
deriving DecidableEq, Repr

/-- Mesh codecs recognized by the shape loaders/savers. -/
inductive MeshFmt where
  | ply
  | obj
  | stl
  | cpp
deriving DecidableEq, Repr

/-- Document codecs recognized by the scene loaders/savers. -/
inductive DocFmt where
  | json
deriving DecidableEq, Repr

/-- The extension dispatch of `load_image`: the branch conditions of the
source, in order, with the unsupported-format error. -/
def load_image_fmt (fn : String) : Except String ImgFmt :=
  let e := pathExtension fn
  if e = ".exr" ∨ e = ".EXR" then .ok .exr
  else if e = ".hdr" ∨ e = ".HDR" then .ok .hdr
  else if e = ".png" ∨ e = ".PNG" then .ok .png
  else if e = ".jpg" ∨ e = ".JPG" ∨ e = ".jpeg" ∨ e = ".JPEG" then .ok .jpg
  else if e = ".tga" ∨ e = ".TGA" then .ok .tga
  else if e = ".bmp" ∨ e = ".BMP" then .ok .bmp
  else if e = ".ypreset" ∨ e = ".YPRESET" then .ok .preset
  else .error ("unsupported format " ++ fn)

/-- The extension dispatch of `save_image`. -/
def save_image_fmt (fn : String) : Except String ImgFmt :=
  let e := pathExtension fn
  if e = ".hdr" ∨ e = ".HDR" then .ok .hdr
  else if e = ".exr" ∨ e = ".EXR" then .ok .exr
  else if e = ".png" ∨ e = ".PNG" then .ok .png
  else if e = ".jpg" ∨ e = ".JPG" ∨ e = ".jpeg" ∨ e = ".JPEG" then .ok .jpg
  else if e = ".tga" ∨ e = ".TGA" then .ok .tga
  else if e = ".bmp" ∨ e = ".BMP" then .ok .bmp
  else .error ("unsupported format " ++ fn)

/-- The extension dispatch of `load_shape`. -/
def load_shape_fmt (fn : String) : Except String MeshFmt :=
  let e := pathExtension fn
  if e = ".ply" ∨ e = ".PLY" then .ok .ply
  else if e = ".obj" ∨ e = ".OBJ" then .ok .obj
  else if e = ".stl" ∨ e = ".STL" then .ok .stl
  else .error ("unsupported format " ++ fn)

/-- The extension dispatch of `save_shape` (including the `.cpp` debugging
export). -/
def save_shape_fmt (fn : String) : Except String MeshFmt :=
  let e := pathExtension fn
  if e = ".ply" ∨ e = ".PLY" then .ok .ply
  else if e = ".obj" ∨ e = ".OBJ" then .ok .obj
  else if e = ".stl" ∨ e = ".STL" then .ok .stl
  else if e = ".cpp" ∨ e = ".CPP" then .ok .cpp
  else .error ("unsupported format " ++ fn)

/-- The extension dispatch of `load_texture`. -/
def load_texture_fmt (fn : String) : Except String ImgFmt :=
  let e := pathExtension fn
  if e = ".exr" ∨ e = ".EXR" then .ok .exr
  else if e = ".hdr" ∨ e = ".HDR" then .ok .hdr
  else if e = ".png" ∨ e = ".PNG" then .ok .png
  else if e = ".jpg" ∨ e = ".JPG" ∨ e = ".jpeg" ∨ e = ".JPEG" then .ok .jpg
  else if e = ".tga" ∨ e = ".TGA" then .ok .tga
  else if e = ".bmp" ∨ e = ".BMP" then .ok .bmp
  else if e = ".ypreset" ∨ e = ".YPRESET" then .ok .preset
  else .error ("unsupported format " ++ fn)

/-- The extension dispatch of `save_texture` (its branch chain). -/
def save_texture_fmt (fn : String) : Except String ImgFmt :=
  let e := pathExtension fn
  if e = ".hdr" ∨ e = ".HDR" then .ok .hdr
  else if e = ".exr" ∨ e = ".EXR" then .ok .exr
  else if e = ".png" ∨ e = ".PNG" then .ok .png
  else if e = ".jpg" ∨ e = ".JPG" ∨ e = ".jpeg" ∨ e = ".JPEG" then .ok .jpg
  else if e = ".tga" ∨ e = ".TGA" then .ok .tga
  else if e = ".bmp" ∨ e = ".BMP" then .ok .bmp
  else .error ("unsupported format " ++ fn)

/-- The extension dispatch of `load_scene`. -/
def load_scene_fmt (fn : String) : Except String DocFmt :=
  let e := pathExtension fn
  if e = ".json" ∨ e = ".JSON" then .ok .json
  else .error ("unsupported format " ++ fn)

/-- The extension dispatch of `save_scene`. -/
def save_scene_fmt (fn : String) : Except String DocFmt :=
  let e := pathExtension fn
  if e = ".json" ∨ e = ".JSON" then .ok .json
  else .error ("unsupported format " ++ fn)

/-- Whether an `Except` result is a success. -/
def isOkE : Except ε α → Bool
  | .ok _ => true
  | .error _ => false

/-- The identity frame, used for concrete witnesses. -/
def idFrame : Frame3 :=
  ⟨⟨⟨1, 1⟩, flZero, flZero⟩, ⟨flZero, ⟨1, 1⟩, flZero⟩,
   ⟨flZero, flZero, ⟨1, 1⟩⟩, v3Zero⟩

/-- A concrete choice of entity defaults used by witnesses and
counterexamples (the theorems themselves hold for every choice). -/
def d0 : SceneDefaults :=
  { camera := { frame := idFrame, orthographic := false, lens := ⟨50, 1000⟩,
                aspect := flZero, film := ⟨36, 1000⟩, focus := ⟨10000, 1⟩,
                aperture := flZero },
    material := { type := .matte, emission := v3Zero, color := v3Zero,
                  metallic := flZero, roughness := flZero, ior := ⟨3, 2⟩,
                  trdepth := ⟨1, 100⟩, scattering := v3Zero,
                  scanisotropy := flZero, opacity := ⟨1, 1⟩,
                  emission_tex := -1, color_tex := -1, roughness_tex := -1,
                  scattering_tex := -1, normal_tex := -1 },
    inst := { frame := idFrame, shape := -1, material := -1,
              border_material := -1 },
    shapeBorder := flZero }

/-- A concrete frame synthesizer for witnesses. -/
def fr0 : SceneData → Frame3 × Fl := fun _ => (idFrame, flZero)

/-- A concrete shape loader (every file missing) for witnesses. -/
def sl0 : String → Except String ShapeData :=
  fun p => .error ("cannot open " ++ p)

/-- A concrete texture loader (every file missing) for witnesses. -/
def tl0 : String → Except String TextureData :=
  fun p => .error ("cannot open " ++ p)

/-- A shape loader in which every load succeeds with a fixed one-point
shape, used to state success "ignoring resource resolution". -/
def slOk (d : SceneDefaults) : String → Except String ShapeData :=
  fun _ => .ok { defShape d.shapeBorder with
    positions := [v3Zero], radius := [flZero], points := [0] }

/-- A texture loader in which every load succeeds with a fixed 1x1 texture,
used to state success "ignoring resource resolution". -/
def tlOk : String → Except String TextureData :=
  fun _ => .ok { width := 1, height := 1, linear := false, pixelsf := [],
                 pixelsb := [⟨0, 0, 0, 255⟩] }

/-- A present field is a string (or absent): the reads that throw otherwise. -/
def fldStr (fs : List (String × Json)) (k : String) : Bool :=
  match lookupJ k fs with
  | none => true
  | some (.str _) => true
  | some _ => false

/-- A present field is a number (or absent). -/
def fldNum (fs : List (String × Json)) (k : String) : Bool :=
  match lookupJ k fs with
  | none => true
  | some (.num _) => true
  | some _ => false

/-- A present field is a bool (or absent). -/
def fldBool (fs : List (String × Json)) (k : String) : Bool :=
  match lookupJ k fs with
  | none => true
  | some (.bool _) => true
  | some _ => false

/-- A present field decodes as a `vec3f` (or is absent). -/
def fldVec3 (fs : List (String × Json)) (k : String) : Bool :=
  match lookupJ k fs with
  | none => true
  | some (.arr xs) => (decodeVec3 xs).isSome
  | some _ => false

/-- A present field decodes as a `frame3f` (or is absent). -/
def fldFrame (fs : List (String × Json)) (k : String) : Bool :=
  match lookupJ k fs with
  | none => true
  | some (.arr xs) => (decodeFrame xs).isSome
  | some _ => false

/-- Well-formedness of a `cameras` element: every typed read succeeds. -/
def wfCamElem : Json → Bool
  | .obj fs =>
    fldStr fs "name" && fldFrame fs "frame" && fldBool fs "orthographic" &&
    fldNum fs "lens" && fldNum fs "aspect" && fldNum fs "film" &&
    fldNum fs "focus" && fldNum fs "aperture"
  | _ => false

/-- Well-formedness of a `textures` element. -/
def wfTexElem : Json → Bool
  | .obj fs => fldStr fs "name" && fldStr fs "uri"
  | _ => false

/-- Well-formedness of a `materials` element (the `type` field never
throws, so it is unconstrained). -/
def wfMatElem : Json → Bool
  | .obj fs =>
    fldStr fs "name" && fldVec3 fs "emission" && fldVec3 fs "color" &&
    fldNum fs "metallic" && fldNum fs "roughness" && fldNum fs "ior" &&
    fldNum fs "trdepth" && fldVec3 fs "scattering" &&
    fldNum fs "scanisotropy" && fldNum fs "opacity" &&
    fldNum fs "emission_tex" && fldNum fs "color_tex" &&
    fldNum fs "roughness_tex" && fldNum fs "scattering_tex" &&
    fldNum fs "normal_tex"
  | _ => false

/-- The inline type tag a `shapes` element will parse (the `type` field's
string value, `""` when absent). -/
def shapeTypeTag (fs : List (String × Json)) : String :=
  match lookupJ "type" fs with
  | some (.str t) => t
  | _ => ""

/-- Well-formedness of the type-dependent fields of a `shapes` element. -/
def wfShapeBody (fs : List (String × Json)) (ty : String) : Bool :=
  if ty = "point" then fldVec3 fs "position" && fldNum fs "radius"
  else if ty = "line" then
    fldVec3 fs "position1" && fldNum fs "radius1" && fldBool fs "arrow1" &&
    fldVec3 fs "position2" && fldNum fs "radius2" && fldBool fs "arrow2"
  else if ty = "triangle" then
    fldVec3 fs "position1" && fldVec3 fs "position2" &&
    fldVec3 fs "position3" && fldNum fs "border_size"
  else if ty = "quad" then
    fldVec3 fs "position1" && fldVec3 fs "position2" &&
    fldVec3 fs "position3" && fldVec3 fs "position4" &&
    fldNum fs "border_size"
  else fldStr fs "uri" && fldNum fs "border_size"

/-- Well-formedness of a `shapes` element, by its inline type tag. -/
def wfShapeElem : Json → Bool
  | .obj fs =>
    fldStr fs "name" && fldStr fs "type" && wfShapeBody fs (shapeTypeTag fs)
  | _ => false

/-- Well-formedness of an `instances` element. -/
def wfInstElem : Json → Bool
  | .obj fs =>
    fldStr fs "name" && fldFrame fs "frame" && fldNum fs "shape" &&
    fldNum fs "material" && fldNum fs "border_material"
  | _ => false

/-- Well-formedness of one top-level group: absent, or all its iterated
elements well-formed. -/
def wfGroup (wfe : Json → Bool) (j : Json) (k : String) : Bool :=
  match j.memberGet k with
  | none => true
  | some g => (iterElems g).all wfe

/-- Well-formedness of the `asset` object body re-read inside the `try`
block (the version value itself is constrained by the outer gate). -/
def wfAsset (j : Json) : Bool :=
  match j.memberGet "asset" with
  | none => true
  | some a =>
    match a with
    | .obj fs => fldStr fs "copyright" && fldStr fs "version"
    | _ => false

/-- A well-formed document: every read the group parsers perform succeeds. -/
def wfDoc (j : Json) : Bool :=
  wfAsset j && wfGroup wfCamElem j "cameras" && wfGroup wfTexElem j "textures" &&
  wfGroup wfMatElem j "materials" && wfGroup wfShapeElem j "shapes" &&
  wfGroup wfInstElem j "instances"

/-- Round-trip side condition on one shape: no border radius (never written
back), no tangents and no explicit end-caps beyond the all-capped fill (the
PLY side file does not store them), some non-empty topology (else the reload
is rejected as an empty shape), and a radius array that the repair pass will
not refill. -/
def ShapeRT (sh : ShapeData) : Prop :=
  sh.border_radius = flZero ∧ sh.tangents = [] ∧
  ¬(sh.points = [] ∧ sh.lines = [] ∧ sh.triangles = [] ∧ sh.quads = []) ∧
  (sh.lines ≠ [] → sh.ends = List.replicate sh.positions.length LineEnd.cap) ∧
  (sh.lines = [] → sh.ends = []) ∧
  (sh.points ≠ [] ∨ sh.lines ≠ [] → sh.radius ≠ [] ∨ sh.positions = [])

instance (sh : ShapeData) : Decidable (ShapeRT sh) := by
  unfold ShapeRT; infer_instance

/-- Round-trip side condition on one texture: its populated buffer matches
the authoritative `linear` flag (float pixels are linear and exclusive; a
byte-only texture is encoded). -/
def TexRT (t : TextureData) : Prop :=
  (t.pixelsf ≠ [] → t.linear = true ∧ t.pixelsb = []) ∧
  (t.pixelsf = [] → t.linear = false)

instance (t : TextureData) : Decidable (TexRT t) := by
  unfold TexRT; infer_instance

/-- Pairwise check that each generated texture filename carries the
extension of its texture's representation. -/
def extsMatch : List String → List TextureData → Bool
  | [], [] => true
  | f :: fs, t :: ts => (pathExtension f = texExtFor t : Bool) && extsMatch fs ts
  | _, _ => false

/-- Conditions under which the document round trip reproduces the scene
exactly: at least one camera (else one is synthesized on load), name arrays
sized to their collections, collision-free generated side-file names with
well-behaved extensions, the per-shape and per-texture conditions above, and
default border-material references (never written by save). -/
def RoundTripable (d : SceneDefaults) (S : SceneData) : Prop :=
  S.cameras ≠ [] ∧
  S.camera_names.length = S.cameras.length ∧
  S.texture_names.length = S.textures.length ∧
  S.material_names.length = S.materials.length ∧
  S.shape_names.length = S.shapes.length ∧
  S.instance_names.length = S.instances.length ∧
  (shapeFilenames S).Nodup ∧
  (texFilenames S).Nodup ∧
  (shapeFilenames S).all (fun f => pathExtension f = ".ply") = true ∧
  extsMatch (texFilenames S) S.textures = true ∧
  (∀ sh ∈ S.shapes, ShapeRT sh) ∧
  (∀ t ∈ S.textures, TexRT t) ∧
  (∀ i ∈ S.instances, i.border_material = d.inst.border_material)

instance (d : SceneDefaults) (S : SceneData) : Decidable (RoundTripable d S) := by
  unfold RoundTripable; infer_instance

/-- A document whose version is `"3.0"`. -/
def doc30 : Json := .obj [("asset", .obj [("version", .str "3.0")])]

/-- A document whose version is `"5.0"`. -/
def doc50 : Json := .obj [("asset", .obj [("version", .str "5.0")])]

/-- The scenario document of the camera claim: one camera with only
`"lens": 0.085` set, no shapes, no instances. -/
def docC6 : Json :=
  .obj [("asset", .obj [("version", .str "4.2")]),
        ("cameras", .arr [.obj [("lens", .num ⟨85, 1000⟩)]])]

/-- An inline `"type": "line"` shape document with `position1`/`position2`
and no `arrow1`/`arrow2` (and no radius) fields. -/
def docLine (p1 p2 : Vec3) : Json :=
  .obj [("asset", .obj [("version", .str "4.2")]),
        ("shapes", .arr [.obj [("type", .str "line"),
          ("position1", encVec3 p1), ("position2", encVec3 p2)]])]

/-- The loaded line shape of `docLine`: two positions, one line `{0,1}`,
value-initialized zero radii (emplaced by the parser, hence not refilled by
the repair pass) and capped ends. -/
def lineShapeOf (d : SceneDefaults) (p1 p2 : Vec3) : ShapeData :=
  { defShape d.shapeBorder with
    positions := [p1, p2], radius := [flZero, flZero],
    ends := [.cap, .cap], lines := [(0, 1)] }

/-- A document with one instance referencing `material: -1` and no
materials of its own. -/
def docInstNoMat : Json :=
  .obj [("asset", .obj [("version", .str "4.2")]),
        ("instances", .arr [.obj [("material", .num ⟨-1, 1⟩)]])]

/-- A document whose second camera element fails the parse midway (its
`lens` field is a string), leaving partially parsed entities behind. -/
def docBadCam : Json :=
  .obj [("asset", .obj [("version", .str "4.2")]),
        ("cameras", .arr [.obj [], .obj [("lens", .str "bad")]])]

/-- The instance with its border material reset to the default, as a load
of the saved document reconstructs it. -/
def resetBorder (d : SceneDefaults) (i : InstanceData) : InstanceData :=
  { i with border_material := d.inst.border_material }

/-- A scene whose single instance carries a valid border-material index: the
round-trip counterexample. -/
def sceneBorderCex : SceneData :=
  { emptyScene with
    cameras := [d0.camera], camera_names := ["cam"],
    materials := [d0.material, grayMaterial d0],
    material_names := ["m0", "m1"],
    instances := [{ frame := idFrame, shape := -1, material := 0,
                    border_material := 1 }],
    instance_names := ["i0"] }

/-- A small scene satisfying every round-trip condition, used as witness. -/
def sceneRTWitness : SceneData :=
  { emptyScene with
    cameras := [{ d0.camera with lens := ⟨85, 1000⟩ }],
    camera_names := ["cam"],
    textures := [{ width := 1, height := 1, linear := false, pixelsf := [],
                   pixelsb := [⟨1, 2, 3, 255⟩] }],
    texture_names := ["tex"],
    materials := [{ d0.material with color := ⟨⟨1, 2⟩, ⟨1, 2⟩, ⟨1, 2⟩⟩ }],
    material_names := ["mat"],
    shapes := [{ defShape flZero with
      positions := [v3Zero, ⟨⟨1, 1⟩, flZero, flZero⟩],
      radius := [⟨1, 100⟩, ⟨1, 100⟩],
      ends := [.cap, .cap],
      lines := [(0, 1)] }],
    shape_names := ["sh"],
    instances := [{ frame := idFrame, shape := 0, material := 0,
                    border_material := d0.inst.border_material }],
    instance_names := ["inst"],
    copyright := "c" }

/-- A float-pixel texture used by the texture-save claims. -/
def texF : TextureData :=
  { width := 1, height := 1, linear := true,
    pixelsf := [⟨⟨1, 1⟩, ⟨1, 1⟩, ⟨1, 1⟩, ⟨1, 1⟩⟩], pixelsb := [] }

/-- A byte-pixel texture used by the texture-save claims. -/
def texB : TextureData :=
  { width := 1, height := 1, linear := false, pixelsf := [],
    pixelsb := [⟨10, 20, 30, 255⟩] }

/-- The name array reconstructed by a load of a saved document: one name per
entity, `""` past the end of the original array (mirroring `get_name`). -/
def padNamesTo : List α → List String → List String
  | [], _ => []
  | _ :: xs, n :: ns => n :: padNamesTo xs ns
  | _ :: xs, [] => "" :: padNamesTo xs []

/-- The image side file written for a texture whose generated filename
carries the extension of its own representation (`.png` for byte pixels,
`.hdr` for float pixels). -/
def texFileFor (t : TextureData) : TexFile :=
  if t.pixelsf = [] then .png t.width t.height t.pixelsb
  else .hdr t.width t.height t.pixelsf

/-! ## Shared lemmas -/

theorem add_missing_camera_of_ne (fr : SceneData → Frame3 × Fl) (s : SceneData)
    (h : s.cameras ≠ []) : add_missing_camera fr s = s := by
  unfold add_missing_camera
  match hc : s.cameras with
  | [] => exact absurd hc h
  | _ :: _ => rfl

theorem add_missing_camera_ne (fr : SceneData → Frame3 × Fl) (s : SceneData) :
    (add_missing_camera fr s).cameras ≠ [] := by
  unfold add_missing_camera
  match hc : s.cameras with
  | [] => simp
  | c :: cs => simp [hc]


theorem addRadiusShape_points (sh : ShapeData) : (addRadiusShape sh).points = sh.points := by
  unfold addRadiusShape; split; rfl; split <;> rfl

theorem addRadiusShape_lines (sh : ShapeData) : (addRadiusShape sh).lines = sh.lines := by
  unfold addRadiusShape; split; rfl; split <;> rfl

theorem addRadiusShape_positions (sh : ShapeData) :
    (addRadiusShape sh).positions = sh.positions := by
  unfold addRadiusShape; split; rfl; split <;> rfl

theorem addRadiusShape_ends (sh : ShapeData) : (addRadiusShape sh).ends = sh.ends := by
  unfold addRadiusShape; split; rfl; split <;> rfl

theorem addCapsShape_points (sh : ShapeData) : (addCapsShape sh).points = sh.points := by
  unfold addCapsShape; split <;> rfl

theorem addCapsShape_lines (sh : ShapeData) : (addCapsShape sh).lines = sh.lines := by
  unfold addCapsShape; split <;> rfl

theorem addCapsShape_positions (sh : ShapeData) :
    (addCapsShape sh).positions = sh.positions := by
  unfold addCapsShape; split <;> rfl

theorem addCapsShape_radius (sh : ShapeData) : (addCapsShape sh).radius = sh.radius := by
  unfold addCapsShape; split <;> rfl

theorem addRadiusShape_self (sh : ShapeData)
    (h : (sh.points = [] ∧ sh.lines = []) ∨ sh.radius ≠ [] ∨ sh.positions = []) :
    addRadiusShape sh = sh := by
  unfold addRadiusShape
  split
  · rfl
  · split
    · rfl
    · rename_i h1 h2
      have hr : sh.radius = [] := not_not.mp h2
      have hp : sh.positions = [] := by
        rcases h with h | h | h
        · exact absurd h h1
        · exact absurd h h2
        · exact h
      have : List.replicate sh.positions.length defaultRadiusConst = sh.radius := by
        rw [hp, hr]; rfl
      rw [this]

theorem addCapsShape_self (sh : ShapeData)
    (h : sh.lines = [] ∨ sh.ends ≠ [] ∨ sh.positions = []) :
    addCapsShape sh = sh := by
  unfold addCapsShape
  split
  · rename_i h1
    have he : sh.ends = [] := h1.2
    have hp : sh.positions = [] := by
      rcases h with h | h | h
      · exact absurd h h1.1
      · exact absurd he h
      · exact h
    have : List.replicate sh.positions.length LineEnd.cap = sh.ends := by
      rw [hp, he]; rfl
    rw [this]
  · rfl

theorem addRadiusShape_ok (sh : ShapeData) :
    ((addRadiusShape sh).points = [] ∧ (addRadiusShape sh).lines = []) ∨
    (addRadiusShape sh).radius ≠ [] ∨ (addRadiusShape sh).positions = [] := by
  unfold addRadiusShape
  split
  · rename_i h1
    exact Or.inl h1
  · split
    · rename_i h1 h2
      exact Or.inr (Or.inl h2)
    · by_cases hp : sh.positions = []
      · exact Or.inr (Or.inr hp)
      · right; left
        show List.replicate sh.positions.length defaultRadiusConst ≠ []
        simp [List.replicate_eq_nil_iff]
        exact hp

theorem addCapsShape_ok (sh : ShapeData) :
    (addCapsShape sh).lines = [] ∨ (addCapsShape sh).ends ≠ [] ∨
    (addCapsShape sh).positions = [] := by
  unfold addCapsShape
  split
  · by_cases hp : sh.positions = []
    · exact Or.inr (Or.inr hp)
    · right; left
      show List.replicate sh.positions.length LineEnd.cap ≠ []
      simp [List.replicate_eq_nil_iff]
      exact hp
  · rename_i h
    rw [not_and_or, not_not] at h
    rcases h with h | h
    · left
      simpa using h
    · exact Or.inr (Or.inl h)

theorem shapePass_radius_stable (sh : ShapeData) :
    addRadiusShape (addCapsShape (addRadiusShape sh)) =
      addCapsShape (addRadiusShape sh) := by
  apply addRadiusShape_self
  rcases addRadiusShape_ok sh with h | h | h
  · left
    rw [addCapsShape_points, addCapsShape_lines]
    exact h
  · right; left
    rw [addCapsShape_radius]
    exact h
  · right; right
    rw [addCapsShape_positions]
    exact h

theorem shapePass_caps_stable (sh : ShapeData) :
    addCapsShape (addCapsShape (addRadiusShape sh)) =
      addCapsShape (addRadiusShape sh) :=
  addCapsShape_self _ (addCapsShape_ok (addRadiusShape sh))

theorem addMaterialGo_ge (d : SceneDefaults) (l : List InstanceData)
    (mats : List MaterialData) (dm : Int) (h : dm = invalidid ∨ 0 ≤ dm) :
    ∀ i ∈ (addMaterialGo d l mats dm).1, 0 ≤ i.material := by
  induction l generalizing mats dm with
  | nil => intro i hi; simp [addMaterialGo] at hi
  | cons a rest ih =>
    intro i hi
    unfold addMaterialGo at hi
    by_cases ha : 0 ≤ a.material
    · simp only [ha, if_pos, List.mem_cons] at hi
      rcases hi with hi | hi
      · subst hi; exact ha
      · exact ih mats dm h i hi
    · simp only [ha, if_neg, not_false_iff] at hi
      by_cases hdm : dm = invalidid
      · simp only [hdm, if_pos, List.mem_cons] at hi
        rcases hi with hi | hi
        · subst hi
          simp
        · refine ih _ _ (Or.inr ?_) i hi
          simp
      · simp only [hdm, if_neg, not_false_iff, List.mem_cons] at hi
        have hdm' : 0 ≤ dm := by
          rcases h with h | h
          · exact absurd h hdm
          · exact h
        rcases hi with hi | hi
        · subst hi; exact hdm'
        · exact ih mats dm h i hi

theorem addMaterialGo_id (d : SceneDefaults) (l : List InstanceData)
    (mats : List MaterialData) (dm : Int) (h : ∀ i ∈ l, 0 ≤ i.material) :
    addMaterialGo d l mats dm = (l, mats) := by
  induction l generalizing mats dm with
  | nil => rfl
  | cons a rest ih =>
    have ha : 0 ≤ a.material := h a (List.mem_cons_self a rest)
    unfold addMaterialGo
    simp only [ha, if_pos]
    rw [ih mats dm (fun i hi => h i (List.mem_cons_of_mem a hi))]

theorem add_missing_material_cameras (d : SceneDefaults) (s : SceneData) :
    (add_missing_material d s).cameras = s.cameras := rfl

theorem add_missing_material_shapes (d : SceneDefaults) (s : SceneData) :
    (add_missing_material d s).shapes = s.shapes := rfl

theorem add_missing_material_instances (d : SceneDefaults) (s : SceneData) :
    (add_missing_material d s).instances =
      (addMaterialGo d s.instances s.materials invalidid).1 := rfl

theorem add_missing_material_id (d : SceneDefaults) (s : SceneData)
    (h : ∀ i ∈ s.instances, 0 ≤ i.material) :
    add_missing_material d s = s := by
  unfold add_missing_material
  rw [addMaterialGo_id d s.instances s.materials invalidid h]

theorem add_missing_material_ge (d : SceneDefaults) (s : SceneData) :
    ∀ i ∈ (add_missing_material d s).instances, 0 ≤ i.material := by
  rw [add_missing_material_instances]
  exact addMaterialGo_ge d s.instances s.materials invalidid (Or.inl rfl)

theorem amr_caps_shape_eq (l : List ShapeData) :
    (((l.map addRadiusShape).map addCapsShape).map addRadiusShape).map addCapsShape =
      (l.map addRadiusShape).map addCapsShape := by
  induction l with
  | nil => rfl
  | cons a r ih =>
    simp only [List.map_cons, List.cons.injEq]
    constructor
    · rw [shapePass_radius_stable]
      exact shapePass_caps_stable a
    · exact ih

theorem repairPass_eq (d : SceneDefaults) (fr : SceneData → Frame3 × Fl) (s : SceneData) :
    repairPass d fr s =
      add_missing_material d
        { add_missing_camera fr s with
          shapes := ((add_missing_camera fr s).shapes.map addRadiusShape).map
            addCapsShape } := by
  rfl

/-- C5: running the Consistency Repair pass (`add_missing_camera`,
`add_missing_radius`, `add_missing_caps`, `add_missing_material`,
`trim_memory`) a second time produces no further changes on any scene
(in particular no additional camera, material, radius entry or end-cap
entry), for every choice of entity defaults and of the camera-framing
computation. -/
theorem c5_repair_idempotent (d : SceneDefaults) (fr : SceneData → Frame3 × Fl)
    (s : SceneData) : repairPass d fr (repairPass d fr s) = repairPass d fr s := by
  have h1 : (repairPass d fr s).cameras ≠ [] := by
    rw [repairPass_eq, add_missing_material_cameras]
    exact add_missing_camera_ne fr s
  rw [repairPass_eq d fr (repairPass d fr s), add_missing_camera_of_ne _ _ h1]
  have hsh : (repairPass d fr s).shapes =
      ((add_missing_camera fr s).shapes.map addRadiusShape).map addCapsShape := by
    rw [repairPass_eq, add_missing_material_shapes]
  have h2 : ((repairPass d fr s).shapes.map addRadiusShape).map addCapsShape =
      (repairPass d fr s).shapes := by
    rw [hsh]
    exact amr_caps_shape_eq _
  rw [h2]
  have h3 : ∀ i ∈ (repairPass d fr s).instances, 0 ≤ i.material := by
    rw [repairPass_eq]
    exact add_missing_material_ge d _
  exact add_missing_material_id d _ h3

theorem add_missing_camera_materials (fr : SceneData → Frame3 × Fl) (s : SceneData) :
    (add_missing_camera fr s).materials = s.materials := by
  unfold add_missing_camera
  match hc : s.cameras with
  | [] => rfl
  | _ :: _ => rfl

theorem add_missing_camera_instances (fr : SceneData → Frame3 × Fl) (s : SceneData) :
    (add_missing_camera fr s).instances = s.instances := by
  unfold add_missing_camera
  match hc : s.cameras with
  | [] => rfl
  | _ :: _ => rfl

theorem addMaterialGo_noadd (d : SceneDefaults) (l : List InstanceData)
    (mats : List MaterialData) (dm : Int) (h : 0 ≤ dm) :
    (addMaterialGo d l mats dm).2 = mats := by
  induction l generalizing mats with
  | nil => rfl
  | cons a rest ih =>
    unfold addMaterialGo
    by_cases ha : 0 ≤ a.material
    · simp only [ha, if_pos]
      exact ih mats
    · have hdm : ¬ dm = invalidid := by
        unfold invalidid; omega
      simp only [ha, if_neg, not_false_iff, hdm]
      exact ih mats

theorem addMaterialGo_len (d : SceneDefaults) (l : List InstanceData)
    (mats : List MaterialData) :
    (addMaterialGo d l mats invalidid).2.length ≤ mats.length + 1 := by
  induction l generalizing mats with
  | nil => simp [addMaterialGo]
  | cons a rest ih =>
    unfold addMaterialGo
    by_cases ha : 0 ≤ a.material
    · simp only [ha, if_pos]
      exact ih mats
    · simp only [ha, if_neg, not_false_iff, if_pos]
      have h0 : (0 : Int) ≤ ((mats ++ [grayMaterial d]).length : Int) - 1 := by
        simp
      rw [addMaterialGo_noadd d rest _ _ h0]
      simp

/-- C4: for every loaded document whose scene has exactly one instance
referencing material `-1` and no materials, the Consistency Repair pass
leaves exactly one material — the default gray matte `grayMaterial d`, i.e.
the default-constructed material with color `{0.8, 0.8, 0.8}` — with the
instance's material index pointing at it (index `0`); and on every scene the
pass creates at most one material, no matter how many instances lack one. -/
theorem c4_default_material (d : SceneDefaults) (fr : SceneData → Frame3 × Fl)
    (sl : String → Except String ShapeData) (tl : String → Except String TextureData)
    (fn : String) (j : Json) (scn : SceneData) (err : String) (i : InstanceData)
    (_hload : load_json_scene d fr sl tl fn j emptyScene "" = (true, scn, err))
    (hm : scn.materials = []) (hi : scn.instances = [i]) (hmat : i.material = -1) :
    (repairPass d fr scn).materials = [grayMaterial d] ∧
    (repairPass d fr scn).instances = [{ i with material := 0 }] ∧
    (∀ s' : SceneData,
      (repairPass d fr s').materials.length ≤ s'.materials.length + 1) := by
  have hbase : ∀ s2 : SceneData, s2.materials = [] → s2.instances = [i] →
      (add_missing_material d s2).materials = [grayMaterial d] ∧
      (add_missing_material d s2).instances = [{ i with material := 0 }] := by
    intro s2 h2m h2i
    unfold add_missing_material
    rw [h2m, h2i]
    unfold addMaterialGo
    have : ¬ 0 ≤ i.material := by rw [hmat]; omega
    simp only [this, if_neg, not_false_iff, if_pos]
    unfold addMaterialGo
    simp [invalidid]
  have h2m : (add_missing_caps (add_missing_radius
      (add_missing_camera fr scn))).materials = [] := by
    have : (add_missing_caps (add_missing_radius
        (add_missing_camera fr scn))).materials =
        (add_missing_camera fr scn).materials := rfl
    rw [this, add_missing_camera_materials]
    exact hm
  have h2i : (add_missing_caps (add_missing_radius
      (add_missing_camera fr scn))).instances = [i] := by
    have : (add_missing_caps (add_missing_radius
        (add_missing_camera fr scn))).instances =
        (add_missing_camera fr scn).instances := rfl
    rw [this, add_missing_camera_instances]
    exact hi
  refine ⟨(hbase _ h2m h2i).1, (hbase _ h2m h2i).2, ?_⟩
  intro s'
  have hmats : (repairPass d fr s').materials =
      (addMaterialGo d
        (add_missing_caps (add_missing_radius (add_missing_camera fr s'))).instances
        (add_missing_caps (add_missing_radius (add_missing_camera fr s'))).materials
        invalidid).2 := rfl
  have hpre : (add_missing_caps (add_missing_radius
      (add_missing_camera fr s'))).materials = s'.materials := by
    have : (add_missing_caps (add_missing_radius
        (add_missing_camera fr s'))).materials =
        (add_missing_camera fr s').materials := rfl
    rw [this, add_missing_camera_materials]
  rw [hmats]
  calc (addMaterialGo d _ _ invalidid).2.length ≤ _ + 1 := addMaterialGo_len d _ _
    _ = s'.materials.length + 1 := by rw [hpre]

/-- Witness for C4 at the concrete document `docInstNoMat`. -/
theorem c4_witness :
    load_json_scene d0 fr0 sl0 tl0 "scene.json" docInstNoMat emptyScene "" =
      (true,
        { emptyScene with
          cameras := [{ frame := idFrame, orthographic := false,
                        lens := ⟨50, 1000⟩, aspect := ⟨16, 9⟩,
                        film := ⟨36, 1000⟩, focus := flZero,
                        aperture := flZero }],
          camera_names := ["camera"],
          instances := [d0.inst], instance_names := [""] }, "") ∧
    ((repairPass d0 fr0
        { emptyScene with
          cameras := [{ frame := idFrame, orthographic := false,
                        lens := ⟨50, 1000⟩, aspect := ⟨16, 9⟩,
                        film := ⟨36, 1000⟩, focus := flZero,
                        aperture := flZero }],
          camera_names := ["camera"],
          instances := [d0.inst], instance_names := [""] }).materials =
      [grayMaterial d0] ∧
     (repairPass d0 fr0
        { emptyScene with
          cameras := [{ frame := idFrame, orthographic := false,
                        lens := ⟨50, 1000⟩, aspect := ⟨16, 9⟩,
                        film := ⟨36, 1000⟩, focus := flZero,
                        aperture := flZero }],
          camera_names := ["camera"],
          instances := [d0.inst], instance_names := [""] }).instances =
      [{ d0.inst with material := 0 }] ∧
     (∀ s' : SceneData,
       (repairPass d0 fr0 s').materials.length ≤ s'.materials.length + 1)) :=
  ⟨by decide,
   c4_default_material d0 fr0 sl0 tl0 "scene.json" docInstNoMat
     { emptyScene with
       cameras := [{ frame := idFrame, orthographic := false,
                     lens := ⟨50, 1000⟩, aspect := ⟨16, 9⟩,
                     film := ⟨36, 1000⟩, focus := flZero,
                     aperture := flZero }],
       camera_names := ["camera"],
       instances := [d0.inst], instance_names := [""] } "" d0.inst
     (by decide) (by decide) (by decide) (by decide)⟩

/-- C6: loading a document declaring exactly one camera with only
`"lens": 0.085` set, zero shapes and zero instances yields exactly one
camera equal to the default-constructed camera with `lens = 0.085`, and
empty collections otherwise — in particular 0 shapes and 0 materials (no
default material is fabricated).  Holds for every choice of defaults,
framing computation, resource loaders and path. -/
theorem c6_lens_only_camera (d : SceneDefaults) (fr : SceneData → Frame3 × Fl)
    (sl : String → Except String ShapeData)
    (tl : String → Except String TextureData) (fn : String) :
    load_json_scene d fr sl tl fn docC6 emptyScene "" =
      (true,
        { emptyScene with cameras := [{ d.camera with lens := ⟨85, 1000⟩ }],
                          camera_names := [""] }, "") := rfl

/-- C7 (amended): an inline `"type": "line"` shape with `position1`/
`position2` and no `arrow1`/`arrow2` fields loads, after the repair steps
run by `load_json_scene`, as a shape with exactly 2 positions, 1 line
`{0,1}` and both end-caps capped — but with per-vertex radius `0` for both
vertices (the parser emplaces value-initialized radius entries, so
`add_missing_radius` finds a non-empty radius array and does not apply the
`0.001` default constant). -/
theorem c7_inline_line (d : SceneDefaults) (fr : SceneData → Frame3 × Fl)
    (sl : String → Except String ShapeData)
    (tl : String → Except String TextureData) (fn : String) (p1 p2 : Vec3) :
    (load_json_scene d fr sl tl fn (docLine p1 p2) emptyScene "").1 = true ∧
    (load_json_scene d fr sl tl fn (docLine p1 p2) emptyScene "").2.1.shapes =
      [lineShapeOf d p1 p2] := ⟨rfl, rfl⟩

/-- Counterexample to C7 as stated: at a concrete inline line document the
loaded shape's per-vertex radius array is `[0, 0]`, not the fixed default
radius constant `0.001` for both vertices. -/
theorem c7_cex :
    ((load_json_scene d0 fr0 sl0 tl0 "scene.json"
        (docLine ⟨⟨1, 1⟩, flZero, flZero⟩ ⟨⟨2, 1⟩, flZero, flZero⟩)
        emptyScene "").2.1.shapes.map (fun sh => sh.radius) =
      [[flZero, flZero]]) ∧
    ([flZero, flZero] ≠ [defaultRadiusConst, defaultRadiusConst]) := by
  exact ⟨by decide, by decide⟩

theorem load_image_fmt_ok (fn : String)
    (h : pathExtension fn ∈ ([".exr", ".EXR", ".hdr", ".HDR", ".png", ".PNG", ".jpg", ".JPG", ".jpeg", ".JPEG", ".tga", ".TGA", ".bmp", ".BMP", ".ypreset", ".YPRESET"] : List String)) :
    isOkE (load_image_fmt fn) = true := by
  unfold load_image_fmt
  simp only [List.mem_cons, List.not_mem_nil, or_false] at h
  rcases h with h | h | h | h | h | h | h | h | h | h | h | h | h | h | h | h <;> simp [h, isOkE]

theorem load_image_fmt_err (fn : String)
    (h : pathExtension fn ∉ ([".exr", ".EXR", ".hdr", ".HDR", ".png", ".PNG", ".jpg", ".JPG", ".jpeg", ".JPEG", ".tga", ".TGA", ".bmp", ".BMP", ".ypreset", ".YPRESET"] : List String)) :
    load_image_fmt fn = .error ("unsupported format " ++ fn) := by
  unfold load_image_fmt
  simp only [List.mem_cons, List.not_mem_nil, or_false, not_or] at h
  obtain ⟨h1, h2, h3, h4, h5, h6, h7, h8, h9, h10, h11, h12, h13, h14, h15, h16⟩ := h
  simp [h1, h2, h3, h4, h5, h6, h7, h8, h9, h10, h11, h12, h13, h14, h15, h16]

theorem save_image_fmt_ok (fn : String)
    (h : pathExtension fn ∈ ([".hdr", ".HDR", ".exr", ".EXR", ".png", ".PNG", ".jpg", ".JPG", ".jpeg", ".JPEG", ".tga", ".TGA", ".bmp", ".BMP"] : List String)) :
    isOkE (save_image_fmt fn) = true := by
  unfold save_image_fmt
  simp only [List.mem_cons, List.not_mem_nil, or_false] at h
  rcases h with h | h | h | h | h | h | h | h | h | h | h | h | h | h <;> simp [h, isOkE]

theorem save_image_fmt_err (fn : String)
    (h : pathExtension fn ∉ ([".hdr", ".HDR", ".exr", ".EXR", ".png", ".PNG", ".jpg", ".JPG", ".jpeg", ".JPEG", ".tga", ".TGA", ".bmp", ".BMP"] : List String)) :
    save_image_fmt fn = .error ("unsupported format " ++ fn) := by
  unfold save_image_fmt
  simp only [List.mem_cons, List.not_mem_nil, or_false, not_or] at h
  obtain ⟨h1, h2, h3, h4, h5, h6, h7, h8, h9, h10, h11, h12, h13, h14⟩ := h
  simp [h1, h2, h3, h4, h5, h6, h7, h8, h9, h10, h11, h12, h13, h14]

theorem load_shape_fmt_ok (fn : String)
    (h : pathExtension fn ∈ ([".ply", ".PLY", ".obj", ".OBJ", ".stl", ".STL"] : List String)) :
    isOkE (load_shape_fmt fn) = true := by
  unfold load_shape_fmt
  simp only [List.mem_cons, List.not_mem_nil, or_false] at h
  rcases h with h | h | h | h | h | h <;> simp [h, isOkE]

theorem load_shape_fmt_err (fn : String)
    (h : pathExtension fn ∉ ([".ply", ".PLY", ".obj", ".OBJ", ".stl", ".STL"] : List String)) :
    load_shape_fmt fn = .error ("unsupported format " ++ fn) := by
  unfold load_shape_fmt
  simp only [List.mem_cons, List.not_mem_nil, or_false, not_or] at h
  obtain ⟨h1, h2, h3, h4, h5, h6⟩ := h
  simp [h1, h2, h3, h4, h5, h6]

theorem save_shape_fmt_ok (fn : String)
    (h : pathExtension fn ∈ ([".ply", ".PLY", ".obj", ".OBJ", ".stl", ".STL", ".cpp", ".CPP"] : List String)) :
    isOkE (save_shape_fmt fn) = true := by
  unfold save_shape_fmt
  simp only [List.mem_cons, List.not_mem_nil, or_false] at h
  rcases h with h | h | h | h | h | h | h | h <;> simp [h, isOkE]

theorem save_shape_fmt_err (fn : String)
    (h : pathExtension fn ∉ ([".ply", ".PLY", ".obj", ".OBJ", ".stl", ".STL", ".cpp", ".CPP"] : List String)) :
    save_shape_fmt fn = .error ("unsupported format " ++ fn) := by
  unfold save_shape_fmt
  simp only [List.mem_cons, List.not_mem_nil, or_false, not_or] at h
  obtain ⟨h1, h2, h3, h4, h5, h6, h7, h8⟩ := h
  simp [h1, h2, h3, h4, h5, h6, h7, h8]

theorem load_texture_fmt_ok (fn : String)
    (h : pathExtension fn ∈ ([".exr", ".EXR", ".hdr", ".HDR", ".png", ".PNG", ".jpg", ".JPG", ".jpeg", ".JPEG", ".tga", ".TGA", ".bmp", ".BMP", ".ypreset", ".YPRESET"] : List String)) :
    isOkE (load_texture_fmt fn) = true := by
  unfold load_texture_fmt
  simp only [List.mem_cons, List.not_mem_nil, or_false] at h
  rcases h with h | h | h | h | h | h | h | h | h | h | h | h | h | h | h | h <;> simp [h, isOkE]

theorem load_texture_fmt_err (fn : String)
    (h : pathExtension fn ∉ ([".exr", ".EXR", ".hdr", ".HDR", ".png", ".PNG", ".jpg", ".JPG", ".jpeg", ".JPEG", ".tga", ".TGA", ".bmp", ".BMP", ".ypreset", ".YPRESET"] : List String)) :
    load_texture_fmt fn = .error ("unsupported format " ++ fn) := by
  unfold load_texture_fmt
  simp only [List.mem_cons, List.not_mem_nil, or_false, not_or] at h
  obtain ⟨h1, h2, h3, h4, h5, h6, h7, h8, h9, h10, h11, h12, h13, h14, h15, h16⟩ := h
  simp [h1, h2, h3, h4, h5, h6, h7, h8, h9, h10, h11, h12, h13, h14, h15, h16]

theorem save_texture_fmt_ok (fn : String)
    (h : pathExtension fn ∈ ([".hdr", ".HDR", ".exr", ".EXR", ".png", ".PNG", ".jpg", ".JPG", ".jpeg", ".JPEG", ".tga", ".TGA", ".bmp", ".BMP"] : List String)) :
    isOkE (save_texture_fmt fn) = true := by
  unfold save_texture_fmt
  simp only [List.mem_cons, List.not_mem_nil, or_false] at h
  rcases h with h | h | h | h | h | h | h | h | h | h | h | h | h | h <;> simp [h, isOkE]

theorem save_texture_fmt_err (fn : String)
    (h : pathExtension fn ∉ ([".hdr", ".HDR", ".exr", ".EXR", ".png", ".PNG", ".jpg", ".JPG", ".jpeg", ".JPEG", ".tga", ".TGA", ".bmp", ".BMP"] : List String)) :
    save_texture_fmt fn = .error ("unsupported format " ++ fn) := by
  unfold save_texture_fmt
  simp only [List.mem_cons, List.not_mem_nil, or_false, not_or] at h
  obtain ⟨h1, h2, h3, h4, h5, h6, h7, h8, h9, h10, h11, h12, h13, h14⟩ := h
  simp [h1, h2, h3, h4, h5, h6, h7, h8, h9, h10, h11, h12, h13, h14]

theorem load_scene_fmt_ok (fn : String)
    (h : pathExtension fn ∈ ([".json", ".JSON"] : List String)) :
    isOkE (load_scene_fmt fn) = true := by
  unfold load_scene_fmt
  simp only [List.mem_cons, List.not_mem_nil, or_false] at h
  rcases h with h | h <;> simp [h, isOkE]

theorem load_scene_fmt_err (fn : String)
    (h : pathExtension fn ∉ ([".json", ".JSON"] : List String)) :
    load_scene_fmt fn = .error ("unsupported format " ++ fn) := by
  unfold load_scene_fmt
  simp only [List.mem_cons, List.not_mem_nil, or_false, not_or] at h
  obtain ⟨h1, h2⟩ := h
  simp [h1, h2]

theorem save_scene_fmt_ok (fn : String)
    (h : pathExtension fn ∈ ([".json", ".JSON"] : List String)) :
    isOkE (save_scene_fmt fn) = true := by
  unfold save_scene_fmt
  simp only [List.mem_cons, List.not_mem_nil, or_false] at h
  rcases h with h | h <;> simp [h, isOkE]

theorem save_scene_fmt_err (fn : String)
    (h : pathExtension fn ∉ ([".json", ".JSON"] : List String)) :
    save_scene_fmt fn = .error ("unsupported format " ++ fn) := by
  unfold save_scene_fmt
  simp only [List.mem_cons, List.not_mem_nil, or_false, not_or] at h
  obtain ⟨h1, h2⟩ := h
  simp [h1, h2]

theorem hdr_not_ldr (fn : String) (h : is_hdr_filename fn = true) :
    is_ldr_filename fn = false := by
  unfold is_hdr_filename at h
  unfold is_ldr_filename
  rcases (by simpa using h : (pathExtension fn = ".hdr" ∨ pathExtension fn = ".exr") ∨
      pathExtension fn = ".pfm") with (h' | h') | h' <;> simp [h']

/-- C8 (amended): `save_texture` applied to a texture whose float pixel
buffer is non-empty with an LDR target extension recognized by the
(lowercase-only) `is_ldr_filename` guard, or whose byte pixel buffer is
non-empty with an `is_hdr_filename` extension, raises the immediate
`std::invalid_argument` hard failure — it is not returned as a wrapped
error value, and no pixels are converted.  The guard tests only the
lowercase extension spellings (see the counterexample for `.PNG`). -/
theorem c8_save_texture_guard (fn : String) (t : TextureData) :
    (t.pixelsf ≠ [] → is_ldr_filename fn = true →
      save_texture fn t = .thrown ("cannot save hdr texture to ldr file " ++ fn)) ∧
    (t.pixelsb ≠ [] → is_hdr_filename fn = true →
      save_texture fn t = .thrown ("cannot save ldr texture to hdr file " ++ fn)) := by
  constructor
  · intro hf hl
    unfold save_texture
    simp [hf, hl]
  · intro hb hh
    unfold save_texture
    have hl : is_ldr_filename fn = false := hdr_not_ldr fn hh
    simp [hb, hh, hl]

/-- Witness for C8 at a float texture and the lowercase `.png` target, and
at a byte texture and the lowercase `.hdr` target. -/
theorem c8_witness :
    (texF.pixelsf ≠ [] ∧ is_ldr_filename "t.png" = true ∧
      save_texture "t.png" texF =
        .thrown ("cannot save hdr texture to ldr file " ++ "t.png")) ∧
    (texB.pixelsb ≠ [] ∧ is_hdr_filename "t.hdr" = true ∧
      save_texture "t.hdr" texB =
        .thrown ("cannot save ldr texture to hdr file " ++ "t.hdr")) :=
  ⟨⟨by decide, by rfl, (c8_save_texture_guard "t.png" texF).1 (by decide) rfl⟩,
   ⟨by decide, by rfl, (c8_save_texture_guard "t.hdr" texB).2 (by decide) rfl⟩⟩

/-- Counterexample to C8 as stated: `.PNG` is a byte-only (LDR) target
extension (the codec branches accept it), yet saving a float-pixel texture
to it does not fail fast — the guard compares lowercase spellings only, and
the png branch silently writes the (empty) byte buffer. -/
theorem c8_cex :
    texF.pixelsf ≠ [] ∧
    save_texture_fmt "t.PNG" = .ok .png ∧
    save_texture "t.PNG" texF = .ok (.png 1 1 []) :=
  ⟨by decide, rfl, rfl⟩

/-- C9 (amended): each load/save dispatcher accepts exactly the
all-lowercase and all-uppercase spellings of its supported extensions
(plus `.jpeg`/`.JPEG`), and any other extension — including mixed-case
spellings of supported formats — fails with an unsupported-format error
naming the path. -/
theorem c9_dispatchers (fn : String) :
    ((pathExtension fn ∈ ([".exr", ".EXR", ".hdr", ".HDR", ".png", ".PNG",
        ".jpg", ".JPG", ".jpeg", ".JPEG", ".tga", ".TGA", ".bmp", ".BMP",
        ".ypreset", ".YPRESET"] : List String) →
        isOkE (load_image_fmt fn) = true) ∧
     (pathExtension fn ∉ ([".exr", ".EXR", ".hdr", ".HDR", ".png", ".PNG",
        ".jpg", ".JPG", ".jpeg", ".JPEG", ".tga", ".TGA", ".bmp", ".BMP",
        ".ypreset", ".YPRESET"] : List String) →
        load_image_fmt fn = .error ("unsupported format " ++ fn))) ∧
    ((pathExtension fn ∈ ([".hdr", ".HDR", ".exr", ".EXR", ".png", ".PNG",
        ".jpg", ".JPG", ".jpeg", ".JPEG", ".tga", ".TGA", ".bmp",
        ".BMP"] : List String) → isOkE (save_image_fmt fn) = true) ∧
     (pathExtension fn ∉ ([".hdr", ".HDR", ".exr", ".EXR", ".png", ".PNG",
        ".jpg", ".JPG", ".jpeg", ".JPEG", ".tga", ".TGA", ".bmp",
        ".BMP"] : List String) →
        save_image_fmt fn = .error ("unsupported format " ++ fn))) ∧
    ((pathExtension fn ∈ ([".ply", ".PLY", ".obj", ".OBJ", ".stl",
        ".STL"] : List String) → isOkE (load_shape_fmt fn) = true) ∧
     (pathExtension fn ∉ ([".ply", ".PLY", ".obj", ".OBJ", ".stl",
        ".STL"] : List String) →
        load_shape_fmt fn = .error ("unsupported format " ++ fn))) ∧
    ((pathExtension fn ∈ ([".ply", ".PLY", ".obj", ".OBJ", ".stl", ".STL",
        ".cpp", ".CPP"] : List String) → isOkE (save_shape_fmt fn) = true) ∧
     (pathExtension fn ∉ ([".ply", ".PLY", ".obj", ".OBJ", ".stl", ".STL",
        ".cpp", ".CPP"] : List String) →
        save_shape_fmt fn = .error ("unsupported format " ++ fn))) ∧
    ((pathExtension fn ∈ ([".exr", ".EXR", ".hdr", ".HDR", ".png", ".PNG",
        ".jpg", ".JPG", ".jpeg", ".JPEG", ".tga", ".TGA", ".bmp", ".BMP",
        ".ypreset", ".YPRESET"] : List String) →
        isOkE (load_texture_fmt fn) = true) ∧
     (pathExtension fn ∉ ([".exr", ".EXR", ".hdr", ".HDR", ".png", ".PNG",
        ".jpg", ".JPG", ".jpeg", ".JPEG", ".tga", ".TGA", ".bmp", ".BMP",
        ".ypreset", ".YPRESET"] : List String) →
        load_texture_fmt fn = .error ("unsupported format " ++ fn))) ∧
    ((pathExtension fn ∈ ([".hdr", ".HDR", ".exr", ".EXR", ".png", ".PNG",
        ".jpg", ".JPG", ".jpeg", ".JPEG", ".tga", ".TGA", ".bmp",
        ".BMP"] : List String) → isOkE (save_texture_fmt fn) = true) ∧
     (pathExtension fn ∉ ([".hdr", ".HDR", ".exr", ".EXR", ".png", ".PNG",
        ".jpg", ".JPG", ".jpeg", ".JPEG", ".tga", ".TGA", ".bmp",
        ".BMP"] : List String) →
        save_texture_fmt fn = .error ("unsupported format " ++ fn))) ∧
    ((pathExtension fn ∈ ([".json", ".JSON"] : List String) →
        isOkE (load_scene_fmt fn) = true) ∧
     (pathExtension fn ∉ ([".json", ".JSON"] : List String) →
        load_scene_fmt fn = .error ("unsupported format " ++ fn))) ∧
    ((pathExtension fn ∈ ([".json", ".JSON"] : List String) →
        isOkE (save_scene_fmt fn) = true) ∧
     (pathExtension fn ∉ ([".json", ".JSON"] : List String) →
        save_scene_fmt fn = .error ("unsupported format " ++ fn))) :=
  ⟨⟨load_image_fmt_ok fn, load_image_fmt_err fn⟩,
   ⟨save_image_fmt_ok fn, save_image_fmt_err fn⟩,
   ⟨load_shape_fmt_ok fn, load_shape_fmt_err fn⟩,
   ⟨save_shape_fmt_ok fn, save_shape_fmt_err fn⟩,
   ⟨load_texture_fmt_ok fn, load_texture_fmt_err fn⟩,
   ⟨save_texture_fmt_ok fn, save_texture_fmt_err fn⟩,
   ⟨load_scene_fmt_ok fn, load_scene_fmt_err fn⟩,
   ⟨save_scene_fmt_ok fn, save_scene_fmt_err fn⟩⟩

/-- Witness for C9: at `x.json` the scene dispatcher succeeds, at `x.Json`
it reports the unsupported-format error naming the path. -/
theorem c9_witness :
    (pathExtension "x.json" ∈ ([".json", ".JSON"] : List String) ∧
      isOkE (load_scene_fmt "x.json") = true) ∧
    (pathExtension "x.Json" ∉ ([".json", ".JSON"] : List String) ∧
      load_scene_fmt "x.Json" = .error ("unsupported format " ++ "x.Json")) :=
  ⟨⟨by decide, (c9_dispatchers "x.json").2.2.2.2.2.2.1.1 (by decide)⟩,
   ⟨by decide, (c9_dispatchers "x.Json").2.2.2.2.2.2.1.2 (by decide)⟩⟩

/-- Counterexample to C9 as stated: extension matching is not
case-insensitive.  `.json` and `.JSON` documents are accepted, but the
mixed-case `scene.Json` is rejected by `load_scene` with an
unsupported-format error even though its extension is `json` up to case. -/
theorem c9_cex :
    load_scene_fmt "scene.json" = .ok .json ∧
    load_scene_fmt "scene.JSON" = .ok .json ∧
    load_scene d0 fr0 sl0 tl0 "scene.Json" docC6 emptyScene "" =
      (false, emptyScene, "unsupported format scene.Json") :=
  ⟨rfl, rfl, rfl⟩

/-- C2 (amended): whenever the non-throwing `load_scene` reports failure
(sequential mode, over the already-parsed document), the outcome is one of:
an unsupported-format failure leaving scene and error untouched except for
the message; a version-gate failure that leaves the caller's scene AND the
caller's error string untouched (so the error may be empty — no message is
produced); a parse failure with the message `cannot parse <path>` (the
caller-visible scene may retain partially parsed entities); or a dependent
resource failure `cannot load <path> since <cause>`.  Only the throwing
convenience variant discards the partial scene. -/
theorem c2_failure_modes (d : SceneDefaults) (fr : SceneData → Frame3 × Fl)
    (sl : String → Except String ShapeData)
    (tl : String → Except String TextureData)
    (fn : String) (j : Json) (s0 : SceneData) (e0 : String)
    (h : (load_scene d fr sl tl fn j s0 e0).1 = false) :
    load_scene d fr sl tl fn j s0 e0 = (false, s0, "unsupported format " ++ fn) ∨
    load_scene d fr sl tl fn j s0 e0 = (false, s0, e0) ∨
    (load_scene d fr sl tl fn j s0 e0).2.2 = "cannot parse " ++ fn ∨
    (∃ e', (load_scene d fr sl tl fn j s0 e0).2.2 =
      "cannot load " ++ fn ++ " since " ++ e') := by
  unfold load_scene at h ⊢
  by_cases hext : pathExtension fn = ".json" ∨ pathExtension fn = ".JSON"
  · simp only [hext, if_pos] at h ⊢
    unfold load_json_scene at h ⊢
    by_cases hg : versionGate j = false
    · simp [hg]
    · simp only [hg, if_neg, not_false_iff, if_false] at h ⊢
      by_cases hp : (parseGroups d j s0).2 = false
      · simp [hp]
      · simp only [hp, if_neg, not_false_iff, if_false] at h ⊢
        match hrs : (loadShapesSeq d sl (pathDirname fn) (parseGroups d j s0).1.shapeTypes
            (parseGroups d j s0).1.shapeUris (parseGroups d j s0).1.shapeBorders
            (parseGroups d j s0).1.scene.shapes).2 with
        | some e =>
          right; right; right
          exact ⟨e, by simp [hrs]⟩
        | none =>
          simp only [hrs] at h ⊢
          match hrt : (loadTexturesSeq tl (pathDirname fn) (parseGroups d j s0).1.texUris
              { (parseGroups d j s0).1.scene with
                shapes := (loadShapesSeq d sl (pathDirname fn)
                  (parseGroups d j s0).1.shapeTypes (parseGroups d j s0).1.shapeUris
                  (parseGroups d j s0).1.shapeBorders
                  (parseGroups d j s0).1.scene.shapes).1 }.textures).2 with
          | some e =>
            right; right; right
            exact ⟨e, by simp [hrt]⟩
          | none =>
            simp [hrt] at h
  · simp [hext] at h ⊢

/-- Witness for C2 applying the theorem at the version-`"3.0"` document. -/
theorem c2_witness :
    (load_scene d0 fr0 sl0 tl0 "scene.json" doc30 emptyScene "xx").1 = false ∧
    (load_scene d0 fr0 sl0 tl0 "scene.json" doc30 emptyScene "xx" =
       (false, emptyScene, "unsupported format " ++ "scene.json") ∨
     load_scene d0 fr0 sl0 tl0 "scene.json" doc30 emptyScene "xx" =
       (false, emptyScene, "xx") ∨
     (load_scene d0 fr0 sl0 tl0 "scene.json" doc30 emptyScene "xx").2.2 =
       "cannot parse " ++ "scene.json" ∨
     (∃ e', (load_scene d0 fr0 sl0 tl0 "scene.json" doc30 emptyScene "xx").2.2 =
       "cannot load " ++ "scene.json" ++ " since " ++ e')) :=
  ⟨by decide,
   c2_failure_modes d0 fr0 sl0 tl0 "scene.json" doc30 emptyScene "xx" (by decide)⟩

/-- Counterexample to C2 as stated: (a) on a version-gate failure the
returned error message is the caller's previous string — here empty, not a
message naming the path; (b) on a mid-group parse failure the caller's
scene visibly retains partially parsed entities (two cameras where the
caller passed an empty scene). -/
theorem c2_cex :
    ((load_scene d0 fr0 sl0 tl0 "scene.json" doc30 emptyScene "").1 = false ∧
     (load_scene d0 fr0 sl0 tl0 "scene.json" doc30 emptyScene "").2.2 = "") ∧
    ((load_scene d0 fr0 sl0 tl0 "scene.json" docBadCam emptyScene "").1 = false ∧
     (load_scene d0 fr0 sl0 tl0 "scene.json" docBadCam emptyScene
        "").2.1.cameras.length = 2 ∧
     emptyScene.cameras.length = 0 ∧
     (load_scene d0 fr0 sl0 tl0 "scene.json" docBadCam emptyScene "").2.2 =
       "cannot parse scene.json") := by
  exact ⟨⟨by decide, by decide⟩, ⟨by decide, by decide, by decide, by decide⟩⟩
theorem getOptStr_none_iff (fs : List (String × Json)) (k : String) (dflt : String) :
    (getOptStr (.obj fs) k dflt = none) ↔ fldStr fs k = false := by
  unfold getOptStr fldStr
  match hl : lookupJ k fs with
  | none => simp [hl]
  | some .null => simp [hl]
  | some (.bool b) => simp [hl]
  | some (.num q) => simp [hl]
  | some (.str s) => simp [hl]
  | some (.arr xs) => simp [hl]
  | some (.obj fs') => simp [hl]

theorem getOptNum_none_iff (fs : List (String × Json)) (k : String) (dflt : Fl) :
    (getOptNum (.obj fs) k dflt = none) ↔ fldNum fs k = false := by
  unfold getOptNum fldNum
  match hl : lookupJ k fs with
  | none => simp [hl]
  | some .null => simp [hl]
  | some (.bool b) => simp [hl]
  | some (.num q) => simp [hl]
  | some (.str s) => simp [hl]
  | some (.arr xs) => simp [hl]
  | some (.obj fs') => simp [hl]

theorem getOptBool_none_iff (fs : List (String × Json)) (k : String) (dflt : Bool) :
    (getOptBool (.obj fs) k dflt = none) ↔ fldBool fs k = false := by
  unfold getOptBool fldBool
  match hl : lookupJ k fs with
  | none => simp [hl]
  | some .null => simp [hl]
  | some (.bool b) => simp [hl]
  | some (.num q) => simp [hl]
  | some (.str s) => simp [hl]
  | some (.arr xs) => simp [hl]
  | some (.obj fs') => simp [hl]

theorem getOptInt_none_iff (fs : List (String × Json)) (k : String) (dflt : Int) :
    (getOptInt (.obj fs) k dflt = none) ↔ fldNum fs k = false := by
  unfold getOptInt fldNum
  match hl : lookupJ k fs with
  | none => simp [hl]
  | some .null => simp [hl]
  | some (.bool b) => simp [hl]
  | some (.num q) => simp [hl]
  | some (.str s) => simp [hl]
  | some (.arr xs) => simp [hl]
  | some (.obj fs') => simp [hl]

theorem getOptVec3_none_iff (fs : List (String × Json)) (k : String) (dflt : Vec3) :
    (getOptVec3 (.obj fs) k dflt = none) ↔ fldVec3 fs k = false := by
  unfold getOptVec3 fldVec3
  match hl : lookupJ k fs with
  | none => simp [hl]
  | some .null => simp [hl]
  | some (.bool b) => simp [hl]
  | some (.num q) => simp [hl]
  | some (.str s) => simp [hl]
  | some (.arr xs) =>
    simp only [hl]
    match hd : decodeVec3 xs with
    | none => simp [hd]
    | some v => simp [hd]
  | some (.obj fs') => simp [hl]

theorem getOptFrame_none_iff (fs : List (String × Json)) (k : String) (dflt : Frame3) :
    (getOptFrame (.obj fs) k dflt = none) ↔ fldFrame fs k = false := by
  unfold getOptFrame fldFrame
  match hl : lookupJ k fs with
  | none => simp [hl]
  | some .null => simp [hl]
  | some (.bool b) => simp [hl]
  | some (.num q) => simp [hl]
  | some (.str s) => simp [hl]
  | some (.arr xs) =>
    simp only [hl]
    match hd : decodeFrame xs with
    | none => simp [hd]
    | some v => simp [hd]
  | some (.obj fs') => simp [hl]

theorem getOptMatType_ne_none (fs : List (String × Json)) (k : String)
    (dflt : MaterialType) : getOptMatType (.obj fs) k dflt ≠ none := by
  unfold getOptMatType
  match hl : lookupJ k fs with
  | none => simp [hl]
  | some v => simp [hl]

theorem getOptEnd_none_iff (fs : List (String × Json)) (k : String) (dflt : LineEnd) :
    (getOptEnd (.obj fs) k dflt = none) ↔ fldBool fs k = false := by
  unfold getOptEnd fldBool
  match hl : lookupJ k fs with
  | none => simp [hl]
  | some .null => simp [hl]
  | some (.bool b) => simp [hl]
  | some (.num q) => simp [hl]
  | some (.str s) => simp [hl]
  | some (.arr xs) => simp [hl]
  | some (.obj fs') => simp [hl]


theorem getOptStr_of_fld {fs : List (String × Json)} {k : String}
    (h : fldStr fs k = true) (dflt : String) :
    ∃ v, getOptStr (.obj fs) k dflt = some v := by
  rcases ho : getOptStr (.obj fs) k dflt with _ | v
  · rw [getOptStr_none_iff] at ho
    rw [ho] at h
    cases h
  · exact ⟨v, rfl⟩

theorem getOptNum_of_fld {fs : List (String × Json)} {k : String}
    (h : fldNum fs k = true) (dflt : Fl) :
    ∃ v, getOptNum (.obj fs) k dflt = some v := by
  rcases ho : getOptNum (.obj fs) k dflt with _ | v
  · rw [getOptNum_none_iff] at ho
    rw [ho] at h
    cases h
  · exact ⟨v, rfl⟩

theorem getOptBool_of_fld {fs : List (String × Json)} {k : String}
    (h : fldBool fs k = true) (dflt : Bool) :
    ∃ v, getOptBool (.obj fs) k dflt = some v := by
  rcases ho : getOptBool (.obj fs) k dflt with _ | v
  · rw [getOptBool_none_iff] at ho
    rw [ho] at h
    cases h
  · exact ⟨v, rfl⟩

theorem getOptInt_of_fld {fs : List (String × Json)} {k : String}
    (h : fldNum fs k = true) (dflt : Int) :
    ∃ v, getOptInt (.obj fs) k dflt = some v := by
  rcases ho : getOptInt (.obj fs) k dflt with _ | v
  · rw [getOptInt_none_iff] at ho
    rw [ho] at h
    cases h
  · exact ⟨v, rfl⟩

theorem getOptVec3_of_fld {fs : List (String × Json)} {k : String}
    (h : fldVec3 fs k = true) (dflt : Vec3) :
    ∃ v, getOptVec3 (.obj fs) k dflt = some v := by
  rcases ho : getOptVec3 (.obj fs) k dflt with _ | v
  · rw [getOptVec3_none_iff] at ho
    rw [ho] at h
    cases h
  · exact ⟨v, rfl⟩

theorem getOptFrame_of_fld {fs : List (String × Json)} {k : String}
    (h : fldFrame fs k = true) (dflt : Frame3) :
    ∃ v, getOptFrame (.obj fs) k dflt = some v := by
  rcases ho : getOptFrame (.obj fs) k dflt with _ | v
  · rw [getOptFrame_none_iff] at ho
    rw [ho] at h
    cases h
  · exact ⟨v, rfl⟩

theorem getOptMatType_some {fs : List (String × Json)} {k : String}
    (dflt : MaterialType) : ∃ v, getOptMatType (.obj fs) k dflt = some v := by
  rcases ho : getOptMatType (.obj fs) k dflt with _ | v
  · exact absurd ho (getOptMatType_ne_none fs k dflt)
  · exact ⟨v, rfl⟩

theorem getOptEnd_of_fld {fs : List (String × Json)} {k : String}
    (h : fldBool fs k = true) (dflt : LineEnd) :
    ∃ v, getOptEnd (.obj fs) k dflt = some v := by
  rcases ho : getOptEnd (.obj fs) k dflt with _ | v
  · rw [getOptEnd_none_iff] at ho
    rw [ho] at h
    cases h
  · exact ⟨v, rfl⟩

theorem parseCamera_ok (e : Json) (c0 : CameraData) (h : wfCamElem e = true) :
    (parseCamera e c0).2.2 = true := by
  match e with
  | .obj fs =>
    simp only [wfCamElem, Bool.and_eq_true] at h
    obtain ⟨⟨⟨⟨⟨⟨⟨ha, hb⟩, hc⟩, hd⟩, he⟩, hf⟩, hg⟩, hh⟩ := h
    obtain ⟨v1, e1⟩ := getOptStr_of_fld ha ""
    obtain ⟨v2, e2⟩ := getOptFrame_of_fld hb c0.frame
    obtain ⟨v3, e3⟩ := getOptBool_of_fld hc c0.orthographic
    obtain ⟨v4, e4⟩ := getOptNum_of_fld hd c0.lens
    obtain ⟨v5, e5⟩ := getOptNum_of_fld he c0.aspect
    obtain ⟨v6, e6⟩ := getOptNum_of_fld hf c0.film
    obtain ⟨v7, e7⟩ := getOptNum_of_fld hg c0.focus
    obtain ⟨v8, e8⟩ := getOptNum_of_fld hh c0.aperture
    simp only [parseCamera, e1, e2, e3, e4, e5, e6, e7, e8]

theorem parseTextureElem_ok (e : Json) (h : wfTexElem e = true) :
    (parseTextureElem e).2.2 = true := by
  match e with
  | .obj fs =>
    simp only [wfTexElem, Bool.and_eq_true] at h
    obtain ⟨ha, hb⟩ := h
    obtain ⟨v1, e1⟩ := getOptStr_of_fld ha ""
    obtain ⟨v2, e2⟩ := getOptStr_of_fld hb ""
    simp only [parseTextureElem, e1, e2]

theorem parseMaterial_ok (e : Json) (m0 : MaterialData) (h : wfMatElem e = true) :
    (parseMaterial e m0).2.2 = true := by
  match e with
  | .obj fs =>
    simp only [wfMatElem, Bool.and_eq_true] at h
    obtain ⟨⟨⟨⟨⟨⟨⟨⟨⟨⟨⟨⟨⟨⟨h1, h2⟩, h3⟩, h4⟩, h5⟩, h6⟩, h7⟩, h8⟩, h9⟩, h10⟩,
      h11⟩, h12⟩, h13⟩, h14⟩, h15⟩ := h
    obtain ⟨w1, e1⟩ := getOptStr_of_fld h1 ""
    obtain ⟨w2, e2⟩ := @getOptMatType_some fs "type" m0.type
    obtain ⟨w3, e3⟩ := getOptVec3_of_fld h2 m0.emission
    obtain ⟨w4, e4⟩ := getOptVec3_of_fld h3 m0.color
    obtain ⟨w5, e5⟩ := getOptNum_of_fld h4 m0.metallic
    obtain ⟨w6, e6⟩ := getOptNum_of_fld h5 m0.roughness
    obtain ⟨w7, e7⟩ := getOptNum_of_fld h6 m0.ior
    obtain ⟨w8, e8⟩ := getOptNum_of_fld h7 m0.trdepth
    obtain ⟨w9, e9⟩ := getOptVec3_of_fld h8 m0.scattering
    obtain ⟨w10, e10⟩ := getOptNum_of_fld h9 m0.scanisotropy
    obtain ⟨w11, e11⟩ := getOptNum_of_fld h10 m0.opacity
    obtain ⟨w12, e12⟩ := getOptInt_of_fld h11 m0.emission_tex
    obtain ⟨w13, e13⟩ := getOptInt_of_fld h12 m0.color_tex
    obtain ⟨w14, e14⟩ := getOptInt_of_fld h13 m0.roughness_tex
    obtain ⟨w15, e15⟩ := getOptInt_of_fld h14 m0.scattering_tex
    obtain ⟨w16, e16⟩ := getOptInt_of_fld h15 m0.normal_tex
    simp only [parseMaterial, e1, e2, e3, e4, e5, e6, e7, e8, e9, e10, e11,
      e12, e13, e14, e15, e16]

theorem parseInstanceElem_ok (e : Json) (i0 : InstanceData) (h : wfInstElem e = true) :
    (parseInstanceElem e i0).2.2 = true := by
  match e with
  | .obj fs =>
    simp only [wfInstElem, Bool.and_eq_true] at h
    obtain ⟨⟨⟨⟨h1, h2⟩, h3⟩, h4⟩, h5⟩ := h
    obtain ⟨w1, e1⟩ := getOptStr_of_fld h1 ""
    obtain ⟨w2, e2⟩ := getOptFrame_of_fld h2 i0.frame
    obtain ⟨w3, e3⟩ := getOptInt_of_fld h3 i0.shape
    obtain ⟨w4, e4⟩ := getOptInt_of_fld h4 i0.material
    obtain ⟨w5, e5⟩ := getOptInt_of_fld h5 i0.border_material
    simp only [parseInstanceElem, e1, e2, e3, e4, e5]




theorem parseShapeElem_ok (d : SceneDefaults) (e : Json) (h : wfShapeElem e = true) :
    (parseShapeElem d e).2.2.2.2.2 = true := by
  match e with
  | .obj fs =>
    simp only [wfShapeElem, Bool.and_eq_true] at h
    obtain ⟨⟨hname, htype⟩, hbody⟩ := h
    obtain ⟨nm, en⟩ := getOptStr_of_fld hname ""
    match hl : lookupJ "type" fs with
    | none =>
      have et : getOptStr (.obj fs) "type" "" = some "" := by
        simp [getOptStr, hl]
      have hty : shapeTypeTag fs = "" := by
        simp [shapeTypeTag, hl]
      rw [hty] at hbody
      simp only [wfShapeBody, String.reduceEq, if_false, Bool.and_eq_true] at hbody
      obtain ⟨hu, hb⟩ := hbody
      obtain ⟨u, eu⟩ := getOptStr_of_fld hu ""
      obtain ⟨b, eb⟩ := getOptNum_of_fld hb flZero
      simp [parseShapeElem, en, et, eu, eb]
    | some (.str t) =>
      have et : getOptStr (.obj fs) "type" "" = some t := by
        simp [getOptStr, hl]
      have hty : shapeTypeTag fs = t := by
        simp [shapeTypeTag, hl]
      rw [hty] at hbody
      by_cases hp : t = "point"
      · subst hp
        simp only [wfShapeBody, String.reduceEq, if_false, if_true,
          Bool.and_eq_true] at hbody
        obtain ⟨h1, h2⟩ := hbody
        obtain ⟨p, ep⟩ := getOptVec3_of_fld h1 v3Zero
        obtain ⟨r, er⟩ := getOptNum_of_fld h2 flZero
        simp [parseShapeElem, en, et, ep, er]
      · by_cases hli : t = "line"
        · subst hli
          simp only [wfShapeBody, String.reduceEq, if_false, if_true,
            Bool.and_eq_true] at hbody
          obtain ⟨⟨⟨⟨⟨h1, h2⟩, h3⟩, h4⟩, h5⟩, h6⟩ := hbody
          obtain ⟨p1, ep1⟩ := getOptVec3_of_fld h1 v3Zero
          obtain ⟨r1, er1⟩ := getOptNum_of_fld h2 flZero
          obtain ⟨a1, ea1⟩ := getOptEnd_of_fld h3 .cap
          obtain ⟨p2, ep2⟩ := getOptVec3_of_fld h4 v3Zero
          obtain ⟨r2, er2⟩ := getOptNum_of_fld h5 flZero
          obtain ⟨a2, ea2⟩ := getOptEnd_of_fld h6 .cap
          simp [parseShapeElem, en, et, ep1, er1, ea1, ep2, er2, ea2]
        · by_cases htr : t = "triangle"
          · subst htr
            simp only [wfShapeBody, String.reduceEq, if_false, if_true,
              Bool.and_eq_true] at hbody
            obtain ⟨⟨⟨h1, h2⟩, h3⟩, h4⟩ := hbody
            obtain ⟨p1, ep1⟩ := getOptVec3_of_fld h1 v3Zero
            obtain ⟨p2, ep2⟩ := getOptVec3_of_fld h2 v3Zero
            obtain ⟨p3, ep3⟩ := getOptVec3_of_fld h3 v3Zero
            obtain ⟨b, eb⟩ := getOptNum_of_fld h4 (defShape d.shapeBorder).border_radius
            simp [parseShapeElem, en, et, ep1, ep2, ep3, eb]
          · by_cases hq : t = "quad"
            · subst hq
              simp only [wfShapeBody, String.reduceEq, if_false, if_true,
                Bool.and_eq_true] at hbody
              obtain ⟨⟨⟨⟨h1, h2⟩, h3⟩, h4⟩, h5⟩ := hbody
              obtain ⟨p1, ep1⟩ := getOptVec3_of_fld h1 v3Zero
              obtain ⟨p2, ep2⟩ := getOptVec3_of_fld h2 v3Zero
              obtain ⟨p3, ep3⟩ := getOptVec3_of_fld h3 v3Zero
              obtain ⟨p4, ep4⟩ := getOptVec3_of_fld h4 v3Zero
              obtain ⟨b, eb⟩ := getOptNum_of_fld h5 (defShape d.shapeBorder).border_radius
              simp [parseShapeElem, en, et, ep1, ep2, ep3, ep4, eb]
            · simp only [wfShapeBody, if_neg hp, if_neg hli, if_neg htr,
                if_neg hq, Bool.and_eq_true] at hbody
              obtain ⟨hu, hb⟩ := hbody
              obtain ⟨u, eu⟩ := getOptStr_of_fld hu ""
              obtain ⟨b, eb⟩ := getOptNum_of_fld hb flZero
              simp [parseShapeElem, en, et, eu, eb, hp, hli, htr, hq]
    | some .null => simp [fldStr, hl] at htype
    | some (.bool bb) => simp [fldStr, hl] at htype
    | some (.num q) => simp [fldStr, hl] at htype
    | some (.arr xs) => simp [fldStr, hl] at htype
    | some (.obj fs2) => simp [fldStr, hl] at htype

theorem parseCamerasGo_ok (d : SceneDefaults) (elems : List Json) (s : SceneData)
    (h : ∀ e ∈ elems, wfCamElem e = true) : (parseCamerasGo d elems s).2 = true := by
  induction elems generalizing s with
  | nil => rfl
  | cons e r ih =>
    unfold parseCamerasGo
    simp only [parseCamera_ok e d.camera (h e (List.mem_cons_self e r)), if_true]
    exact ih _ (fun e' he' => h e' (List.mem_cons_of_mem e he'))

theorem parseTexturesGo_ok (elems : List Json) (st : ParseSt)
    (h : ∀ e ∈ elems, wfTexElem e = true) : (parseTexturesGo elems st).2 = true := by
  induction elems generalizing st with
  | nil => rfl
  | cons e r ih =>
    unfold parseTexturesGo
    simp only [parseTextureElem_ok e (h e (List.mem_cons_self e r)), if_true]
    exact ih _ (fun e' he' => h e' (List.mem_cons_of_mem e he'))

theorem parseMaterialsGo_ok (d : SceneDefaults) (elems : List Json) (s : SceneData)
    (h : ∀ e ∈ elems, wfMatElem e = true) : (parseMaterialsGo d elems s).2 = true := by
  induction elems generalizing s with
  | nil => rfl
  | cons e r ih =>
    unfold parseMaterialsGo
    simp only [parseMaterial_ok e d.material (h e (List.mem_cons_self e r)), if_true]
    exact ih _ (fun e' he' => h e' (List.mem_cons_of_mem e he'))

theorem parseShapesGo_ok (d : SceneDefaults) (elems : List Json) (st : ParseSt)
    (h : ∀ e ∈ elems, wfShapeElem e = true) : (parseShapesGo d elems st).2 = true := by
  induction elems generalizing st with
  | nil => rfl
  | cons e r ih =>
    unfold parseShapesGo
    simp only [parseShapeElem_ok d e (h e (List.mem_cons_self e r)), if_true]
    exact ih _ (fun e' he' => h e' (List.mem_cons_of_mem e he'))

theorem parseInstancesGo_ok (d : SceneDefaults) (elems : List Json) (s : SceneData)
    (h : ∀ e ∈ elems, wfInstElem e = true) : (parseInstancesGo d elems s).2 = true := by
  induction elems generalizing s with
  | nil => rfl
  | cons e r ih =>
    unfold parseInstancesGo
    simp only [parseInstanceElem_ok e d.inst (h e (List.mem_cons_self e r)), if_true]
    exact ih _ (fun e' he' => h e' (List.mem_cons_of_mem e he'))

theorem assetStep_ok (j : Json) (st : ParseSt) (hg : versionGate j = true)
    (hw : wfAsset j = true) : (assetStep j st).2 = true := by
  unfold versionGate at hg
  unfold wfAsset at hw
  unfold assetStep
  match hm : j.memberGet "asset" with
  | none =>
    simp only [hm]
  | some a =>
    simp only [hm] at hg hw ⊢
    match a with
    | .null => simp [Json.memberGet] at hg
    | .bool b => simp [Json.memberGet] at hg
    | .num q => simp [Json.memberGet] at hg
    | .str s => simp [Json.memberGet] at hg
    | .arr xs => simp [Json.memberGet] at hg
    | .obj fs =>
      simp only [Bool.and_eq_true] at hw
      obtain ⟨hc, hv⟩ := hw
      obtain ⟨cp, ec⟩ := getOptStr_of_fld hc st.scene.copyright
      simp only [ec]
      simp only [Json.memberGet] at hg
      match hlv : lookupJ "version" fs with
      | none => rw [hlv] at hg; simp at hg
      | some .null => rw [hlv] at hg; simp at hg
      | some (.bool b) => rw [hlv] at hg; simp at hg
      | some (.num q) => rw [hlv] at hg; simp at hg
      | some (.arr xs) => rw [hlv] at hg; simp at hg
      | some (.obj fs2) => rw [hlv] at hg; simp at hg
      | some (.str v) =>
        rw [hlv] at hg
        simp only [decide_eq_true_eq] at hg
        have ev : getOptStr (.obj fs) "version" "" = some v := by
          simp [getOptStr, hlv]
        simp only [ev]
        rw [hg]
        simp

theorem parseGroups_ok (d : SceneDefaults) (j : Json) (s0 : SceneData)
    (hg : versionGate j = true) (hw : wfDoc j = true) :
    (parseGroups d j s0).2 = true := by
  unfold wfDoc at hw
  simp only [Bool.and_eq_true] at hw
  obtain ⟨⟨⟨⟨⟨ha, hcam⟩, htex⟩, hmat⟩, hsh⟩, hin⟩ := hw
  have hA : ∀ st, (assetStep j st).2 = true := fun st => assetStep_ok j st hg ha
  have hC : ∀ st, (camerasStep d j st).2 = true := by
    intro st
    unfold camerasStep
    unfold wfGroup at hcam
    match hm : j.memberGet "cameras" with
    | none => simp only [hm]
    | some g =>
      rw [hm] at hcam
      simp only [hm]
      exact parseCamerasGo_ok d _ _ (by simpa [List.all_eq_true] using hcam)
  have hT : ∀ st, (texturesStep j st).2 = true := by
    intro st
    unfold texturesStep
    unfold wfGroup at htex
    match hm : j.memberGet "textures" with
    | none => simp only [hm]
    | some g =>
      rw [hm] at htex
      simp only [hm]
      exact parseTexturesGo_ok _ _ (by simpa [List.all_eq_true] using htex)
  have hM : ∀ st, (materialsStep d j st).2 = true := by
    intro st
    unfold materialsStep
    unfold wfGroup at hmat
    match hm : j.memberGet "materials" with
    | none => simp only [hm]
    | some g =>
      rw [hm] at hmat
      simp only [hm]
      exact parseMaterialsGo_ok d _ _ (by simpa [List.all_eq_true] using hmat)
  have hS : ∀ st, (shapesStep d j st).2 = true := by
    intro st
    unfold shapesStep
    unfold wfGroup at hsh
    match hm : j.memberGet "shapes" with
    | none => simp only [hm]
    | some g =>
      rw [hm] at hsh
      simp only [hm]
      exact parseShapesGo_ok d _ _ (by simpa [List.all_eq_true] using hsh)
  have hI : ∀ st, (instancesStep d j st).2 = true := by
    intro st
    unfold instancesStep
    unfold wfGroup at hin
    match hm : j.memberGet "instances" with
    | none => simp only [hm]
    | some g =>
      rw [hm] at hin
      simp only [hm]
      exact parseInstancesGo_ok d _ _ (by simpa [List.all_eq_true] using hin)
  simp [parseGroups, hA, hC, hT, hM, hS, hI]

theorem loadShapesSeq_okloader (d : SceneDefaults) (dirname : String)
    (ts us : List String) (bs : List Fl) (shs : List ShapeData) :
    (loadShapesSeq d (slOk d) dirname ts us bs shs).2 = none := by
  induction ts generalizing us bs shs with
  | nil => rfl
  | cons t tr ih =>
    unfold loadShapesSeq
    match us, bs, shs with
    | [], _, _ => rfl
    | u :: ur, [], _ => rfl
    | u :: ur, b :: br, [] => rfl
    | u :: ur, b :: br, sh :: shr =>
      by_cases ht : t = "uri"
      · simp only [ht, if_pos, slOk]
        exact ih ur br shr
      · simp only [ht, if_neg, not_false_iff]
        exact ih ur br shr

theorem loadTexturesSeq_okloader (dirname : String) (us : List String)
    (ts : List TextureData) :
    (loadTexturesSeq tlOk dirname us ts).2 = none := by
  induction us generalizing ts with
  | nil => rfl
  | cons u ur ih =>
    unfold loadTexturesSeq
    match ts with
    | [] => rfl
    | t :: tr =>
      simp only [tlOk]
      exact ih tr

/-- C1 (amended): the outer version gate of `load_json_scene` requires
`asset.version` to be exactly the string `"4.2"`; a document whose version
is missing or anything else — including `"5.0"` and `"3.0"` — always fails
to load (with the caller's scene and error untouched at this gate); and a
well-formed document carrying version `"4.2"` always parses successfully,
ignoring resource resolution (every resource loader succeeding). -/
theorem c1_version_gate :
    (∀ (d : SceneDefaults) (fr : SceneData → Frame3 × Fl)
       (sl : String → Except String ShapeData)
       (tl : String → Except String TextureData)
       (fn : String) (j : Json) (s0 : SceneData) (e0 : String),
       versionGate j = false →
       load_json_scene d fr sl tl fn j s0 e0 = (false, s0, e0)) ∧
    (∀ (d : SceneDefaults) (fr : SceneData → Frame3 × Fl)
       (fn : String) (j : Json) (s0 : SceneData) (e0 : String),
       versionGate j = true → wfDoc j = true →
       (load_json_scene d fr (slOk d) tlOk fn j s0 e0).1 = true) := by
  constructor
  · intro d fr sl tl fn j s0 e0 h
    unfold load_json_scene
    simp [h]
  · intro d fr fn j s0 e0 hg hw
    unfold load_json_scene
    simp [hg, parseGroups_ok d j s0 hg hw, loadShapesSeq_okloader,
      loadTexturesSeq_okloader]

/-- Witness for C1: the version-`"3.0"` document fails, the well-formed
version-`"4.2"` document `docC6` parses. -/
theorem c1_witness :
    (versionGate doc30 = false ∧
      load_json_scene d0 fr0 sl0 tl0 "scene.json" doc30 emptyScene "" =
        (false, emptyScene, "")) ∧
    (versionGate docC6 = true ∧ wfDoc docC6 = true ∧
      (load_json_scene d0 fr0 (slOk d0) tlOk "scene.json" docC6
        emptyScene "").1 = true) :=
  ⟨⟨by decide,
    c1_version_gate.1 d0 fr0 sl0 tl0 "scene.json" doc30 emptyScene "" (by decide)⟩,
   ⟨by decide, by decide,
    c1_version_gate.2 d0 fr0 "scene.json" docC6 emptyScene "" (by decide)
      (by decide)⟩⟩

/-- Counterexample to C1 as stated: a document with version `"5.0"` never
parses — even with every resource load succeeding it fails at the outer
gate — while the corresponding `"4.2"` document succeeds. -/
theorem c1_cex :
    load_json_scene d0 fr0 (slOk d0) tlOk "scene.json" doc50 emptyScene "" =
      (false, emptyScene, "") ∧
    (load_json_scene d0 fr0 (slOk d0) tlOk "scene.json" docC6
      emptyScene "").1 = true :=
  ⟨by decide, by decide⟩
theorem lookupJ_append (k : String) (l1 l2 : List (String × Json)) :
    lookupJ k (l1 ++ l2) =
      (match lookupJ k l1 with
       | some v => some v
       | none => lookupJ k l2) := by
  induction l1 with
  | nil => simp [lookupJ]
  | cons p r ih =>
    match p with
    | (k', v) =>
      by_cases h : k' = k
      · simp [lookupJ, h]
      · simp [lookupJ, h, ih]

theorem lookupJ_mkF_ne [DecidableEq α] (k k' : String) (enc : α → Json)
    (v dflt : α) (h : ¬ k' = k) : lookupJ k (mkF k' enc v dflt) = none := by
  by_cases hv : v = dflt <;> simp [mkF, hv, lookupJ, h]

theorem lookupJ_mkF_self [DecidableEq α] (k : String) (enc : α → Json)
    (v dflt : α) :
    lookupJ k (mkF k enc v dflt) = if v = dflt then none else some (enc v) := by
  by_cases hv : v = dflt <;> simp [mkF, hv, lookupJ]

theorem getOptStr_enc (fs : List (String × Json)) (k : String) (v dflt : String)
    (hk : lookupJ k fs = if v = dflt then none else some (Json.str v)) :
    getOptStr (.obj fs) k dflt = some v := by
  simp only [getOptStr]
  rw [hk]
  by_cases hv : v = dflt <;> simp [hv]

theorem getOptNum_enc (fs : List (String × Json)) (k : String) (v dflt : Fl)
    (hk : lookupJ k fs = if v = dflt then none else some (Json.num v)) :
    getOptNum (.obj fs) k dflt = some v := by
  simp only [getOptNum]
  rw [hk]
  by_cases hv : v = dflt <;> simp [hv]

theorem getOptBool_enc (fs : List (String × Json)) (k : String) (v dflt : Bool)
    (hk : lookupJ k fs = if v = dflt then none else some (Json.bool v)) :
    getOptBool (.obj fs) k dflt = some v := by
  simp only [getOptBool]
  rw [hk]
  by_cases hv : v = dflt <;> simp [hv]


theorem flTrunc_int (i : Int) : flTrunc ⟨i, 1⟩ = i := by
  unfold flTrunc
  exact Int.tdiv_one i
theorem getOptInt_enc (fs : List (String × Json)) (k : String) (v dflt : Int)
    (hk : lookupJ k fs = if v = dflt then none else some (encInt v)) :
    getOptInt (.obj fs) k dflt = some v := by
  simp only [getOptInt]
  rw [hk]
  by_cases hv : v = dflt <;> simp [hv, encInt, flTrunc_int]

theorem getOptVec3_enc (fs : List (String × Json)) (k : String) (v dflt : Vec3)
    (hk : lookupJ k fs = if v = dflt then none else some (encVec3 v)) :
    getOptVec3 (.obj fs) k dflt = some v := by
  simp only [getOptVec3]
  rw [hk]
  by_cases hv : v = dflt <;> simp [hv, encVec3, decodeVec3]

theorem getOptFrame_enc (fs : List (String × Json)) (k : String) (v dflt : Frame3)
    (hk : lookupJ k fs = if v = dflt then none else some (encFrame v)) :
    getOptFrame (.obj fs) k dflt = some v := by
  simp only [getOptFrame]
  rw [hk]
  by_cases hv : v = dflt <;> simp [hv, encFrame, decodeFrame]

theorem matTypeOfJson_enc (t : MaterialType) : matTypeOfJson (encMatType t) = t := by
  cases t <;> rfl

theorem getOptMatType_enc (fs : List (String × Json)) (k : String)
    (v dflt : MaterialType)
    (hk : lookupJ k fs = if v = dflt then none else some (encMatType v)) :
    getOptMatType (.obj fs) k dflt = some v := by
  simp only [getOptMatType]
  rw [hk]
  by_cases hv : v = dflt <;> simp [hv, matTypeOfJson_enc]


theorem parseCamera_camElem (n : String) (c dc : CameraData) :
    parseCamera (camElem n c dc) dc = (c, n, true) := by
  have e1 : getOptStr (camElem n c dc) "name" "" = some n := by
    apply getOptStr_enc
    by_cases hv : n = "" <;>
      simp [camElem, lookupJ_append, lookupJ_mkF_ne, lookupJ_mkF_self, hv]
  have e2 : getOptFrame (camElem n c dc) "frame" dc.frame = some c.frame := by
    apply getOptFrame_enc
    by_cases hv : c.frame = dc.frame <;>
      simp [camElem, lookupJ_append, lookupJ_mkF_ne, lookupJ_mkF_self, hv]
  have e3 : getOptBool (camElem n c dc) "orthographic" dc.orthographic = some c.orthographic := by
    apply getOptBool_enc
    by_cases hv : c.orthographic = dc.orthographic <;>
      simp [camElem, lookupJ_append, lookupJ_mkF_ne, lookupJ_mkF_self, hv]
  have e4 : getOptNum (camElem n c dc) "lens" dc.lens = some c.lens := by
    apply getOptNum_enc
    by_cases hv : c.lens = dc.lens <;>
      simp [camElem, lookupJ_append, lookupJ_mkF_ne, lookupJ_mkF_self, hv]
  have e5 : getOptNum (camElem n c dc) "aspect" dc.aspect = some c.aspect := by
    apply getOptNum_enc
    by_cases hv : c.aspect = dc.aspect <;>
      simp [camElem, lookupJ_append, lookupJ_mkF_ne, lookupJ_mkF_self, hv]
  have e6 : getOptNum (camElem n c dc) "film" dc.film = some c.film := by
    apply getOptNum_enc
    by_cases hv : c.film = dc.film <;>
      simp [camElem, lookupJ_append, lookupJ_mkF_ne, lookupJ_mkF_self, hv]
  have e7 : getOptNum (camElem n c dc) "focus" dc.focus = some c.focus := by
    apply getOptNum_enc
    by_cases hv : c.focus = dc.focus <;>
      simp [camElem, lookupJ_append, lookupJ_mkF_ne, lookupJ_mkF_self, hv]
  have e8 : getOptNum (camElem n c dc) "aperture" dc.aperture = some c.aperture := by
    apply getOptNum_enc
    by_cases hv : c.aperture = dc.aperture <;>
      simp [camElem, lookupJ_append, lookupJ_mkF_ne, lookupJ_mkF_self, hv]
  simp only [parseCamera, e1, e2, e3, e4, e5, e6, e7, e8]

theorem getOptStr_absent (fs : List (String × Json)) (k : String) (dflt : String)
    (h : lookupJ k fs = none) : getOptStr (.obj fs) k dflt = some dflt := by
  simp only [getOptStr]
  rw [h]

theorem getOptNum_absent (fs : List (String × Json)) (k : String) (dflt : Fl)
    (h : lookupJ k fs = none) : getOptNum (.obj fs) k dflt = some dflt := by
  simp only [getOptNum]
  rw [h]

theorem getOptInt_absent (fs : List (String × Json)) (k : String) (dflt : Int)
    (h : lookupJ k fs = none) : getOptInt (.obj fs) k dflt = some dflt := by
  simp only [getOptInt]
  rw [h]

theorem parseTextureElem_texElem (n u : String) :
    parseTextureElem (texElem n u) = (n, u, true) := by
  have e1 : getOptStr (texElem n u) "name" "" = some n := by
    apply getOptStr_enc
    by_cases hv : n = "" <;>
      simp [texElem, lookupJ_append, lookupJ_mkF_ne, lookupJ_mkF_self, hv]
  have e2 : getOptStr (texElem n u) "uri" "" = some u := by
    apply getOptStr_enc
    by_cases hv : u = "" <;>
      simp [texElem, lookupJ_append, lookupJ_mkF_ne, lookupJ_mkF_self, hv]
  simp only [parseTextureElem, e1, e2]

theorem parseShapeElem_shapeElemJ (d : SceneDefaults) (n u : String) :
    parseShapeElem d (shapeElemJ n u) =
      (defShape d.shapeBorder, n, "uri", u, flZero, true) := by
  have e1 : getOptStr (shapeElemJ n u) "name" "" = some n := by
    apply getOptStr_enc
    by_cases hv : n = "" <;>
      simp [shapeElemJ, lookupJ_append, lookupJ_mkF_ne, lookupJ_mkF_self, hv]
  have e2 : getOptStr (shapeElemJ n u) "type" "" = some "" := by
    apply getOptStr_absent
    simp [shapeElemJ, lookupJ_append, lookupJ_mkF_ne]
  have e3 : getOptStr (shapeElemJ n u) "uri" "" = some u := by
    apply getOptStr_enc
    by_cases hv : u = "" <;>
      simp [shapeElemJ, lookupJ_append, lookupJ_mkF_ne, lookupJ_mkF_self, hv]
  have e4 : getOptNum (shapeElemJ n u) "border_size" flZero = some flZero := by
    apply getOptNum_absent
    simp [shapeElemJ, lookupJ_append, lookupJ_mkF_ne]
  simp [parseShapeElem, e1, e2, e3, e4]

theorem parseInstanceElem_instElem (n : String) (i di : InstanceData) :
    parseInstanceElem (instElem n i di) di =
      (⟨i.frame, i.shape, i.material, di.border_material⟩, n, true) := by
  have e1 : getOptStr (instElem n i di) "name" "" = some n := by
    apply getOptStr_enc
    by_cases hv : n = "" <;>
      simp [instElem, lookupJ_append, lookupJ_mkF_ne, lookupJ_mkF_self, hv]
  have e2 : getOptFrame (instElem n i di) "frame" di.frame = some i.frame := by
    apply getOptFrame_enc
    by_cases hv : i.frame = di.frame <;>
      simp [instElem, lookupJ_append, lookupJ_mkF_ne, lookupJ_mkF_self, hv]
  have e3 : getOptInt (instElem n i di) "shape" di.shape = some i.shape := by
    apply getOptInt_enc
    by_cases hv : i.shape = di.shape <;>
      simp [instElem, lookupJ_append, lookupJ_mkF_ne, lookupJ_mkF_self, hv]
  have e4 : getOptInt (instElem n i di) "material" di.material =
      some i.material := by
    apply getOptInt_enc
    by_cases hv : i.material = di.material <;>
      simp [instElem, lookupJ_append, lookupJ_mkF_ne, lookupJ_mkF_self, hv]
  have e5 : getOptInt (instElem n i di) "border_material" di.border_material =
      some di.border_material := by
    apply getOptInt_absent
    simp [instElem, lookupJ_append, lookupJ_mkF_ne]
  simp only [parseInstanceElem, e1, e2, e3, e4, e5]

theorem parseMaterial_matElem (n : String) (m dm : MaterialData) :
    parseMaterial (matElem n m dm) dm = (m, n, true) := by
  have e1 : getOptStr (matElem n m dm) "name" "" = some n := by
    apply getOptStr_enc
    by_cases hv : n = "" <;>
      simp [matElem, lookupJ_append, lookupJ_mkF_ne, lookupJ_mkF_self, hv]
  have e2 : getOptMatType (matElem n m dm) "type" dm.type = some m.type := by
    apply getOptMatType_enc
    by_cases hv : m.type = dm.type <;>
      simp [matElem, lookupJ_append, lookupJ_mkF_ne, lookupJ_mkF_self, hv]
  have e3 : getOptVec3 (matElem n m dm) "emission" dm.emission = some m.emission := by
    apply getOptVec3_enc
    by_cases hv : m.emission = dm.emission <;>
      simp [matElem, lookupJ_append, lookupJ_mkF_ne, lookupJ_mkF_self, hv]
  have e4 : getOptVec3 (matElem n m dm) "color" dm.color = some m.color := by
    apply getOptVec3_enc
    by_cases hv : m.color = dm.color <;>
      simp [matElem, lookupJ_append, lookupJ_mkF_ne, lookupJ_mkF_self, hv]
  have e5 : getOptNum (matElem n m dm) "metallic" dm.metallic = some m.metallic := by
    apply getOptNum_enc
    by_cases hv : m.metallic = dm.metallic <;>
      simp [matElem, lookupJ_append, lookupJ_mkF_ne, lookupJ_mkF_self, hv]
  have e6 : getOptNum (matElem n m dm) "roughness" dm.roughness = some m.roughness := by
    apply getOptNum_enc
    by_cases hv : m.roughness = dm.roughness <;>
      simp [matElem, lookupJ_append, lookupJ_mkF_ne, lookupJ_mkF_self, hv]
  have e7 : getOptNum (matElem n m dm) "ior" dm.ior = some m.ior := by
    apply getOptNum_enc
    by_cases hv : m.ior = dm.ior <;>
      simp [matElem, lookupJ_append, lookupJ_mkF_ne, lookupJ_mkF_self, hv]
  have e8 : getOptNum (matElem n m dm) "trdepth" dm.trdepth = some m.trdepth := by
    apply getOptNum_enc
    by_cases hv : m.trdepth = dm.trdepth <;>
      simp [matElem, lookupJ_append, lookupJ_mkF_ne, lookupJ_mkF_self, hv]
  have e9 : getOptVec3 (matElem n m dm) "scattering" dm.scattering = some m.scattering := by
    apply getOptVec3_enc
    by_cases hv : m.scattering = dm.scattering <;>
      simp [matElem, lookupJ_append, lookupJ_mkF_ne, lookupJ_mkF_self, hv]
  have e10 : getOptNum (matElem n m dm) "scanisotropy" dm.scanisotropy = some m.scanisotropy := by
    apply getOptNum_enc
    by_cases hv : m.scanisotropy = dm.scanisotropy <;>
      simp [matElem, lookupJ_append, lookupJ_mkF_ne, lookupJ_mkF_self, hv]
  have e11 : getOptNum (matElem n m dm) "opacity" dm.opacity = some m.opacity := by
    apply getOptNum_enc
    by_cases hv : m.opacity = dm.opacity <;>
      simp [matElem, lookupJ_append, lookupJ_mkF_ne, lookupJ_mkF_self, hv]
  have e12 : getOptInt (matElem n m dm) "emission_tex" dm.emission_tex = some m.emission_tex := by
    apply getOptInt_enc
    by_cases hv : m.emission_tex = dm.emission_tex <;>
      simp [matElem, lookupJ_append, lookupJ_mkF_ne, lookupJ_mkF_self, hv]
  have e13 : getOptInt (matElem n m dm) "color_tex" dm.color_tex = some m.color_tex := by
    apply getOptInt_enc
    by_cases hv : m.color_tex = dm.color_tex <;>
      simp [matElem, lookupJ_append, lookupJ_mkF_ne, lookupJ_mkF_self, hv]
  have e14 : getOptInt (matElem n m dm) "roughness_tex" dm.roughness_tex = some m.roughness_tex := by
    apply getOptInt_enc
    by_cases hv : m.roughness_tex = dm.roughness_tex <;>
      simp [matElem, lookupJ_append, lookupJ_mkF_ne, lookupJ_mkF_self, hv]
  have e15 : getOptInt (matElem n m dm) "scattering_tex" dm.scattering_tex = some m.scattering_tex := by
    apply getOptInt_enc
    by_cases hv : m.scattering_tex = dm.scattering_tex <;>
      simp [matElem, lookupJ_append, lookupJ_mkF_ne, lookupJ_mkF_self, hv]
  have e16 : getOptInt (matElem n m dm) "normal_tex" dm.normal_tex = some m.normal_tex := by
    apply getOptInt_enc
    by_cases hv : m.normal_tex = dm.normal_tex <;>
      simp [matElem, lookupJ_append, lookupJ_mkF_ne, lookupJ_mkF_self, hv]
  simp only [parseMaterial, e1, e2, e3, e4, e5, e6, e7, e8, e9, e10, e11, e12, e13, e14, e15, e16]

theorem parseCamerasGo_save (d : SceneDefaults) (cs : List CameraData)
    (ns : List String) (s : SceneData) :
    parseCamerasGo d (saveCamsJ d.camera cs ns) s =
      ({ s with cameras := s.cameras ++ cs,
                camera_names := s.camera_names ++ padNamesTo cs ns }, true) := by
  induction cs generalizing ns s with
  | nil =>
    cases ns <;> simp [saveCamsJ, parseCamerasGo, padNamesTo]
  | cons c cr ih =>
    cases ns with
    | nil =>
      simp only [saveCamsJ, parseCamerasGo, parseCamera_camElem, if_true]
      rw [ih]
      simp [padNamesTo]
    | cons n nr =>
      simp only [saveCamsJ, parseCamerasGo, parseCamera_camElem, if_true]
      rw [ih]
      simp [padNamesTo]

theorem parseTexturesGo_save (fs ns : List String) (st : ParseSt) :
    parseTexturesGo (saveTexsJ fs ns) st =
      ({ st with
         scene := { st.scene with
           textures := st.scene.textures ++ List.replicate fs.length defTexture,
           texture_names := st.scene.texture_names ++ padNamesTo fs ns },
         texUris := st.texUris ++ fs }, true) := by
  induction fs generalizing ns st with
  | nil =>
    cases ns <;> simp [saveTexsJ, parseTexturesGo, padNamesTo]
  | cons f fr ih =>
    cases ns with
    | nil =>
      simp only [saveTexsJ, parseTexturesGo, parseTextureElem_texElem, if_true]
      rw [ih]
      simp [padNamesTo, List.replicate_succ]
    | cons n nr =>
      simp only [saveTexsJ, parseTexturesGo, parseTextureElem_texElem, if_true]
      rw [ih]
      simp [padNamesTo, List.replicate_succ]

theorem parseMaterialsGo_save (d : SceneDefaults) (ms : List MaterialData)
    (ns : List String) (s : SceneData) :
    parseMaterialsGo d (saveMatsJ d.material ms ns) s =
      ({ s with materials := s.materials ++ ms,
                material_names := s.material_names ++ padNamesTo ms ns }, true) := by
  induction ms generalizing ns s with
  | nil =>
    cases ns <;> simp [saveMatsJ, parseMaterialsGo, padNamesTo]
  | cons m mr ih =>
    cases ns with
    | nil =>
      simp only [saveMatsJ, parseMaterialsGo, parseMaterial_matElem, if_true]
      rw [ih]
      simp [padNamesTo]
    | cons n nr =>
      simp only [saveMatsJ, parseMaterialsGo, parseMaterial_matElem, if_true]
      rw [ih]
      simp [padNamesTo]

theorem parseShapesGo_save (d : SceneDefaults) (fs ns : List String)
    (st : ParseSt) :
    parseShapesGo d (saveShapesJ fs ns) st =
      ({ st with
         scene := { st.scene with
           shapes := st.scene.shapes ++
             List.replicate fs.length (defShape d.shapeBorder),
           shape_names := st.scene.shape_names ++ padNamesTo fs ns },
         shapeTypes := st.shapeTypes ++ List.replicate fs.length "uri",
         shapeUris := st.shapeUris ++ fs,
         shapeBorders := st.shapeBorders ++
           List.replicate fs.length flZero }, true) := by
  induction fs generalizing ns st with
  | nil =>
    cases ns <;> simp [saveShapesJ, parseShapesGo, padNamesTo]
  | cons f fr ih =>
    cases ns with
    | nil =>
      simp only [saveShapesJ, parseShapesGo, parseShapeElem_shapeElemJ, if_true]
      rw [ih]
      simp [padNamesTo, List.replicate_succ]
    | cons n nr =>
      simp only [saveShapesJ, parseShapesGo, parseShapeElem_shapeElemJ, if_true]
      rw [ih]
      simp [padNamesTo, List.replicate_succ]

theorem parseInstancesGo_save (d : SceneDefaults) (is : List InstanceData)
    (ns : List String) (s : SceneData) :
    parseInstancesGo d (saveInstsJ d.inst is ns) s =
      ({ s with
         instances := s.instances ++
           is.map (fun i =>
             ⟨i.frame, i.shape, i.material, d.inst.border_material⟩),
         instance_names := s.instance_names ++ padNamesTo is ns }, true) := by
  induction is generalizing ns s with
  | nil =>
    cases ns <;> simp [saveInstsJ, parseInstancesGo, padNamesTo]
  | cons i ir ih =>
    cases ns with
    | nil =>
      simp only [saveInstsJ, parseInstancesGo, parseInstanceElem_instElem,
        if_true]
      rw [ih]
      simp [padNamesTo]
    | cons n nr =>
      simp only [saveInstsJ, parseInstancesGo, parseInstanceElem_instElem,
        if_true]
      rw [ih]
      simp [padNamesTo]

theorem lookupJ_ite_nil (k k' : String) (c : Prop) [Decidable c] (v : Json)
    (h : ¬ k' = k) :
    lookupJ k (if c then [] else [(k', v)]) = none := by
  split <;> simp [lookupJ, h]

theorem assetStep_saveDoc (d : SceneDefaults) (S : SceneData) (st : ParseSt)
    (h : st.scene.copyright = "") :
    assetStep (saveDoc d S) st =
      ({ st with scene := { st.scene with copyright := S.copyright } }, true) := by
  by_cases hv : S.copyright = "" <;>
    simp [assetStep, saveDoc, Json.memberGet, lookupJ, lookupJ_append,
      getOptStr, mkF, hv, h]

theorem camerasStep_saveDoc (d : SceneDefaults) (S : SceneData) (st : ParseSt) :
    camerasStep d (saveDoc d S) st =
      ({ st with scene := { st.scene with
          cameras := st.scene.cameras ++ S.cameras,
          camera_names := st.scene.camera_names ++
            padNamesTo S.cameras S.camera_names } }, true) := by
  by_cases hc : S.cameras = []
  · simp [camerasStep, saveDoc, Json.memberGet, lookupJ, lookupJ_append,
      lookupJ_mkF_ne, lookupJ_ite_nil, hc, padNamesTo]
  · simp [camerasStep, saveDoc, Json.memberGet, lookupJ, lookupJ_append,
      lookupJ_mkF_ne, lookupJ_ite_nil, hc, iterElems, parseCamerasGo_save]

theorem texturesStep_saveDoc (d : SceneDefaults) (S : SceneData) (st : ParseSt) :
    texturesStep (saveDoc d S) st =
      ({ st with
         scene := { st.scene with
           textures := st.scene.textures ++
             List.replicate (texFilenames S).length defTexture,
           texture_names := st.scene.texture_names ++
             padNamesTo (texFilenames S) S.texture_names },
         texUris := st.texUris ++ texFilenames S }, true) := by
  by_cases hc : S.textures = []
  · have hf : texFilenames S = [] := by
      simp [texFilenames, hc, texFilenamesGo]
    simp [texturesStep, saveDoc, Json.memberGet, lookupJ, lookupJ_append,
      lookupJ_mkF_ne, lookupJ_ite_nil, hc, hf, padNamesTo]
  · simp [texturesStep, saveDoc, Json.memberGet, lookupJ, lookupJ_append,
      lookupJ_mkF_ne, lookupJ_ite_nil, hc, iterElems, parseTexturesGo_save]

theorem materialsStep_saveDoc (d : SceneDefaults) (S : SceneData) (st : ParseSt) :
    materialsStep d (saveDoc d S) st =
      ({ st with scene := { st.scene with
          materials := st.scene.materials ++ S.materials,
          material_names := st.scene.material_names ++
            padNamesTo S.materials S.material_names } }, true) := by
  by_cases hc : S.materials = []
  · simp [materialsStep, saveDoc, Json.memberGet, lookupJ, lookupJ_append,
      lookupJ_mkF_ne, lookupJ_ite_nil, hc, padNamesTo]
  · simp [materialsStep, saveDoc, Json.memberGet, lookupJ, lookupJ_append,
      lookupJ_mkF_ne, lookupJ_ite_nil, hc, iterElems, parseMaterialsGo_save]

theorem shapesStep_saveDoc (d : SceneDefaults) (S : SceneData) (st : ParseSt) :
    shapesStep d (saveDoc d S) st =
      ({ st with
         scene := { st.scene with
           shapes := st.scene.shapes ++
             List.replicate (shapeFilenames S).length (defShape d.shapeBorder),
           shape_names := st.scene.shape_names ++
             padNamesTo (shapeFilenames S) S.shape_names },
         shapeTypes := st.shapeTypes ++
           List.replicate (shapeFilenames S).length "uri",
         shapeUris := st.shapeUris ++ shapeFilenames S,
         shapeBorders := st.shapeBorders ++
           List.replicate (shapeFilenames S).length flZero }, true) := by
  by_cases hc : S.shapes = []
  · have hf : shapeFilenames S = [] := by
      simp [shapeFilenames, hc, shapeFilenamesGo]
    simp [shapesStep, saveDoc, Json.memberGet, lookupJ, lookupJ_append,
      lookupJ_mkF_ne, lookupJ_ite_nil, hc, hf, padNamesTo]
  · simp [shapesStep, saveDoc, Json.memberGet, lookupJ, lookupJ_append,
      lookupJ_mkF_ne, lookupJ_ite_nil, hc, iterElems, parseShapesGo_save]

theorem instancesStep_saveDoc (d : SceneDefaults) (S : SceneData) (st : ParseSt) :
    instancesStep d (saveDoc d S) st =
      ({ st with scene := { st.scene with
          instances := st.scene.instances ++
            S.instances.map (fun i =>
              ⟨i.frame, i.shape, i.material, d.inst.border_material⟩),
          instance_names := st.scene.instance_names ++
            padNamesTo S.instances S.instance_names } }, true) := by
  by_cases hc : S.instances = []
  · simp [instancesStep, saveDoc, Json.memberGet, lookupJ, lookupJ_append,
      lookupJ_mkF_ne, lookupJ_ite_nil, hc, padNamesTo]
  · simp [instancesStep, saveDoc, Json.memberGet, lookupJ, lookupJ_append,
      lookupJ_mkF_ne, lookupJ_ite_nil, hc, iterElems, parseInstancesGo_save]

theorem versionGate_saveDoc (d : SceneDefaults) (S : SceneData) :
    versionGate (saveDoc d S) = true := by
  by_cases hv : S.copyright = "" <;>
    simp [versionGate, saveDoc, Json.memberGet, lookupJ, lookupJ_append,
      mkF, hv]

theorem parseGroups_saveDoc (d : SceneDefaults) (S : SceneData) :
    parseGroups d (saveDoc d S) emptyScene =
      (⟨{ emptyScene with
          copyright := S.copyright,
          cameras := S.cameras,
          camera_names := padNamesTo S.cameras S.camera_names,
          textures := List.replicate (texFilenames S).length defTexture,
          texture_names := padNamesTo (texFilenames S) S.texture_names,
          materials := S.materials,
          material_names := padNamesTo S.materials S.material_names,
          shapes := List.replicate (shapeFilenames S).length
            (defShape d.shapeBorder),
          shape_names := padNamesTo (shapeFilenames S) S.shape_names,
          instances := S.instances.map (fun i =>
            ⟨i.frame, i.shape, i.material, d.inst.border_material⟩),
          instance_names := padNamesTo S.instances S.instance_names },
        List.replicate (shapeFilenames S).length "uri",
        shapeFilenames S,
        List.replicate (shapeFilenames S).length flZero,
        texFilenames S⟩, true) := by
  simp only [parseGroups, assetStep_saveDoc, camerasStep_saveDoc,
    texturesStep_saveDoc, materialsStep_saveDoc, shapesStep_saveDoc,
    instancesStep_saveDoc, if_true, List.nil_append, emptyScene]

theorem pathJoin_empty (b : String) : pathJoin "" b = b := by
  simp [pathJoin]

theorem map_pathJoin_empty (us : List String) :
    us.map (pathJoin "") = us := by
  induction us with
  | nil => rfl
  | cons u ur ih => simp [pathJoin_empty, ih]

theorem padNamesTo_self (xs : List α) (ns : List String)
    (h : ns.length = xs.length) : padNamesTo xs ns = ns := by
  induction xs generalizing ns with
  | nil => cases ns with
    | nil => rfl
    | cons => simp at h
  | cons x xr ih =>
    cases ns with
    | nil => simp at h
    | cons n nr =>
      simp only [List.length_cons, Nat.succ.injEq] at h
      simp [padNamesTo, ih nr h]

theorem texFilenamesGo_length (i : Nat) (ts : List TextureData)
    (ns : List String) : (texFilenamesGo i ts ns).length = ts.length := by
  induction ts generalizing i ns with
  | nil => cases ns <;> simp [texFilenamesGo]
  | cons t tr ih => cases ns <;> simp [texFilenamesGo, ih]

theorem shapeFilenamesGo_length (i : Nat) (ss : List ShapeData)
    (ns : List String) : (shapeFilenamesGo i ss ns).length = ss.length := by
  induction ss generalizing i ns with
  | nil => cases ns <;> simp [shapeFilenamesGo]
  | cons s sr ih => cases ns <;> simp [shapeFilenamesGo, ih]

theorem findFS_zip (us : List String) (vs : List α) (hnd : us.Nodup) :
    ∀ p ∈ List.zip us vs, findFS p.1 (List.zip us vs) = some p.2 := by
  induction us generalizing vs with
  | nil => simp
  | cons u ur ih =>
    cases vs with
    | nil => simp
    | cons v vr =>
      intro p hp
      simp only [List.zip_cons_cons, List.mem_cons] at hp
      rcases hp with h | h
      · subst h; simp [findFS]
      · have h1 : p.1 ∈ ur := (List.of_mem_zip h).1
        have hne : ¬ u = p.1 := by
          intro he; rw [he] at hnd
          exact (List.nodup_cons.mp hnd).1 h1
        simp only [List.zip_cons_cons, findFS, hne, if_false]
        exact ih vr (List.nodup_cons.mp hnd).2 p h

theorem save_texture_rt (f : String) (t : TextureData)
    (hf : pathExtension f = texExtFor t) (ht : TexRT t) :
    save_texture f t = .ok (texFileFor t) := by
  by_cases hp : t.pixelsf = []
  · have hf' : pathExtension f = ".png" := by rw [hf]; simp [texExtFor, hp]
    simp [save_texture, is_ldr_filename, is_hdr_filename, hf', hp, texFileFor]
  · obtain ⟨hl, hb⟩ := ht.1 hp
    have hf' : pathExtension f = ".hdr" := by rw [hf]; simp [texExtFor, hp]
    simp [save_texture, is_ldr_filename, is_hdr_filename, hf', hp, hb,
      texFileFor]

theorem texLoaderOf_ok (F : List (String × TexFile)) (u : String)
    (t : TextureData) (hext : pathExtension u = texExtFor t) (ht : TexRT t)
    (hfind : findFS u F = some (texFileFor t)) :
    texLoaderOf F u = .ok t := by
  by_cases hp : t.pixelsf = []
  · have hl := ht.2 hp
    have hf' : pathExtension u = ".png" := by rw [hext]; simp [texExtFor, hp]
    have hfile : findFS u F = some (.png t.width t.height t.pixelsb) := by
      rw [hfind]; simp [texFileFor, hp]
    simp only [texLoaderOf, hf', hfile]
    simp only [String.reduceEq, false_or, or_false, or_self, ite_false,
      ite_true]
    rw [← hl, ← hp]
  · obtain ⟨hl, hb⟩ := ht.1 hp
    have hf' : pathExtension u = ".hdr" := by rw [hext]; simp [texExtFor, hp]
    have hfile : findFS u F = some (.hdr t.width t.height t.pixelsf) := by
      rw [hfind]; simp [texFileFor, hp]
    simp only [texLoaderOf, hf', hfile]
    simp only [String.reduceEq, false_or, or_false, or_self, ite_false,
      ite_true]
    rw [← hl, ← hb]

theorem shapeLoaderOf_ok (d : SceneDefaults) (F : List (String × PlyFile))
    (u : String) (ply : PlyFile) (hext : pathExtension u = ".ply")
    (hfind : findFS u F = some ply)
    (hne : ¬(ply.points = [] ∧ ply.lines = [] ∧ ply.triangles = [] ∧
      ply.quads = [])) :
    shapeLoaderOf d F u = .ok (shapeOfPly d ply) := by
  simp [shapeLoaderOf, hext, hfind, hne]

theorem extsMatch_mem (fs : List String) (ts : List TextureData)
    (h : extsMatch fs ts = true) :
    ∀ p ∈ List.zip fs ts, pathExtension p.1 = texExtFor p.2 := by
  induction fs generalizing ts with
  | nil => simp
  | cons f fr ih =>
    cases ts with
    | nil => simp [extsMatch] at h
    | cons t tr =>
      simp only [extsMatch, Bool.and_eq_true, decide_eq_true_eq] at h
      intro p hp
      simp only [List.zip_cons_cons, List.mem_cons] at hp
      rcases hp with he | he
      · subst he; exact h.1
      · exact ih tr h.2 p he

theorem extsMatch_length (fs : List String) (ts : List TextureData)
    (h : extsMatch fs ts = true) : fs.length = ts.length := by
  induction fs generalizing ts with
  | nil => cases ts with
    | nil => rfl
    | cons => simp [extsMatch] at h
  | cons f fr ih =>
    cases ts with
    | nil => simp [extsMatch] at h
    | cons t tr =>
      simp only [extsMatch, Bool.and_eq_true] at h
      simp [ih tr h.2]

theorem saveTexFilesGo_ok (fs : List String) (ts : List TextureData)
    (hext : extsMatch fs ts = true) (hrt : ∀ t ∈ ts, TexRT t) :
    saveTexFilesGo fs ts = (List.zip fs (ts.map texFileFor), none) := by
  induction fs generalizing ts with
  | nil => cases ts with
    | nil => simp [saveTexFilesGo]
    | cons => simp [extsMatch] at hext
  | cons f fr ih =>
    cases ts with
    | nil => simp [extsMatch] at hext
    | cons t tr =>
      simp only [extsMatch, Bool.and_eq_true, decide_eq_true_eq] at hext
      have hs := save_texture_rt f t hext.1 (hrt t (by simp))
      simp only [saveTexFilesGo, hs]
      rw [ih tr hext.2 (fun x hx => hrt x (List.mem_cons_of_mem t hx))]
      simp [List.zip_cons_cons]

theorem loadTexturesSeq_zip (tl : String → Except String TextureData)
    (dirname : String) (us : List String) (ts0 ts : List TextureData)
    (h0 : ts0.length = us.length) (hlen : ts.length = us.length)
    (h : ∀ p ∈ List.zip us ts, tl (pathJoin dirname p.1) = .ok p.2) :
    loadTexturesSeq tl dirname us ts0 = (ts, none) := by
  induction us generalizing ts0 ts with
  | nil =>
    cases ts0 with
    | nil => cases ts with
      | nil => rfl
      | cons => simp at hlen
    | cons => simp at h0
  | cons u ur ih =>
    cases ts0 with
    | nil => simp at h0
    | cons t0 tr0 =>
    cases ts with
    | nil => simp at hlen
    | cons t tr =>
      have hh := h (u, t) (by simp [List.zip_cons_cons])
      simp only [loadTexturesSeq, hh]
      rw [ih tr0 tr (by simpa using h0) (by simpa using hlen)
        (fun p hp => h p (by simp [List.zip_cons_cons, hp]))]

theorem loadShapesSeq_zip (d : SceneDefaults)
    (sl : String → Except String ShapeData) (dirname : String)
    (us : List String) (shs0 mid : List ShapeData)
    (h0 : shs0.length = us.length) (hlen : mid.length = us.length)
    (h : ∀ p ∈ List.zip us mid, sl (pathJoin dirname p.1) = .ok p.2) :
    loadShapesSeq d sl dirname (List.replicate us.length "uri") us
        (List.replicate us.length flZero) shs0 =
      (mid.map (fun s => { s with border_radius := flZero }), none) := by
  induction us generalizing shs0 mid with
  | nil =>
    cases shs0 with
    | nil => cases mid with
      | nil => rfl
      | cons => simp at hlen
    | cons => simp at h0
  | cons u ur ih =>
    cases shs0 with
    | nil => simp at h0
    | cons s0 sr0 =>
    cases mid with
    | nil => simp at hlen
    | cons m mr =>
      have hh := h (u, m) (by simp [List.zip_cons_cons])
      simp only [List.length_cons, List.replicate_succ, loadShapesSeq, hh,
        if_true]
      rw [ih sr0 mr (by simpa using h0) (by simpa using hlen)
        (fun p hp => h p (by simp [List.zip_cons_cons, hp]))]
      simp

theorem fixShape_rt (d : SceneDefaults) (sh : ShapeData) (h : ShapeRT sh) :
    addCapsShape (addRadiusShape
      { shapeOfPly d (plyOfShape sh) with border_radius := flZero }) = sh := by
  obtain ⟨hbr, htan, htop, hcap, hnol, hrad⟩ := h
  obtain ⟨pts, lns, tris, qds, pos, nor, tex, col, rad, tan, ends, bord⟩ := sh
  dsimp only at *
  subst hbr htan
  by_cases hl : lns = []
  · subst hl
    have he : ends = [] := hnol rfl
    subst he
    by_cases hp : pts = []
    · simp [addRadiusShape, addCapsShape, shapeOfPly, plyOfShape, defShape, hp]
    · rcases hrad (by simp [hp]) with hne | hpos
      · simp [addRadiusShape, addCapsShape, shapeOfPly, plyOfShape, defShape, hp, hne]
      · subst hpos
        by_cases hr : rad = []
        · subst hr
          simp [addRadiusShape, addCapsShape, shapeOfPly, plyOfShape, defShape, hp]
        · simp [addRadiusShape, addCapsShape, shapeOfPly, plyOfShape, defShape, hp, hr]
  · have he : ends = List.replicate pos.length LineEnd.cap := hcap hl
    subst he
    rcases hrad (by simp [hl]) with hne | hpos
    · simp [addRadiusShape, addCapsShape, shapeOfPly, plyOfShape, defShape, hl, hne]
    · subst hpos
      by_cases hr : rad = []
      · subst hr
        simp [addRadiusShape, addCapsShape, shapeOfPly, plyOfShape, defShape, hl]
      · simp [addRadiusShape, addCapsShape, shapeOfPly, plyOfShape, defShape, hl, hr]

theorem shapesFix_rt (d : SceneDefaults) :
    ∀ l : List ShapeData, (∀ sh ∈ l, ShapeRT sh) →
      List.map addCapsShape (List.map addRadiusShape
        (List.map (fun s => { s with border_radius := flZero })
          ((l.map plyOfShape).map (shapeOfPly d)))) = l := by
  intro l
  induction l with
  | nil => intro _; rfl
  | cons sh lr ih =>
    intro hl
    simp only [List.map_cons]
    rw [ih (fun x hx => hl x (List.mem_cons_of_mem sh hx))]
    rw [fixShape_rt d sh (hl sh (by simp))]

/-- C3: the claim as stated — load of save reproduces every scene with no
inline-analytic shapes — is refuted by the border-material counterexample;
this corrected version proves the round trip exact under the conditions save
actually preserves: a flat document path, at least one camera, name arrays
sized to their collections, collision-free generated side-file names with
well-behaved extensions, shapes whose non-PLY-stored fields (tangents,
explicit end caps beyond the all-capped fill, border radius) are default and
whose radius arrays the repair pass will not refill, textures whose pixel
buffer matches their `linear` flag, and default instance border-material
references. -/
theorem c3_round_trip (d : SceneDefaults) (fr : SceneData → Frame3 × Fl)
    (fn : String) (S : SceneData) (hdir : pathDirname fn = "")
    (hrt : RoundTripable d S) :
    roundTrip d fr fn S = (true, S, "") := by
  obtain ⟨hcam, hcn, htn, hmn, hsn, hin, hsnd, htnd, hply, hexts, hshrt,
    htxrt, hbm⟩ := hrt
  have nshape : (shapeFilenames S).length = S.shapes.length :=
    shapeFilenamesGo_length 0 _ _
  have ntex : (texFilenames S).length = S.textures.length :=
    texFilenamesGo_length 0 _ _
  have hsave : saveJsonScene d fn S = SaveOut.ok (saveDoc d S)
      (List.zip (shapeFilenames S) (S.shapes.map plyOfShape))
      (List.zip (texFilenames S) (S.textures.map texFileFor)) := by
    simp only [saveJsonScene, hdir, map_pathJoin_empty,
      saveTexFilesGo_ok (texFilenames S) S.textures hexts htxrt]
  have hload : ∀ p ∈ List.zip (shapeFilenames S)
      ((S.shapes.map plyOfShape).map (shapeOfPly d)),
      shapeLoaderOf d (List.zip (shapeFilenames S) (S.shapes.map plyOfShape))
        (pathJoin "" p.1) = .ok p.2 := by
    intro p hp
    rw [pathJoin_empty]
    rw [List.zip_map_right] at hp
    obtain ⟨q, hq, he⟩ := List.mem_map.mp hp
    obtain ⟨u, ply⟩ := q
    obtain ⟨hq1, hq2⟩ := List.of_mem_zip hq
    obtain ⟨sh, hsh, hps⟩ := List.mem_map.mp hq2
    subst he
    have hext : pathExtension u = ".ply" := by
      have := List.all_eq_true.mp hply u hq1
      simpa using this
    have hfind := findFS_zip _ (S.shapes.map plyOfShape) hsnd _ hq
    apply shapeLoaderOf_ok d _ u ply hext hfind
    have htop := (hshrt sh hsh).2.2.1
    rw [← hps]
    dsimp [plyOfShape]
    exact htop
  have hshapes := loadShapesSeq_zip d
    (shapeLoaderOf d (List.zip (shapeFilenames S) (S.shapes.map plyOfShape)))
    "" (shapeFilenames S)
    (List.replicate (shapeFilenames S).length (defShape d.shapeBorder))
    ((S.shapes.map plyOfShape).map (shapeOfPly d))
    (by simp) (by simp [nshape]) hload
  have htexload : ∀ p ∈ List.zip (texFilenames S) S.textures,
      texLoaderOf (List.zip (texFilenames S) (S.textures.map texFileFor))
        (pathJoin "" p.1) = .ok p.2 := by
    intro p hp
    rw [pathJoin_empty]
    apply texLoaderOf_ok
    · exact extsMatch_mem _ _ hexts p hp
    · exact htxrt p.2 (List.of_mem_zip hp).2
    · have hmem : Prod.map id texFileFor p ∈
          List.zip (texFilenames S) (S.textures.map texFileFor) := by
        rw [List.zip_map_right]
        exact List.mem_map_of_mem _ hp
      have hf := findFS_zip _ _ htnd _ hmem
      obtain ⟨u, t⟩ := p
      simpa using hf
  have htex := loadTexturesSeq_zip
    (texLoaderOf (List.zip (texFilenames S) (S.textures.map texFileFor))) ""
    (texFilenames S) (List.replicate (texFilenames S).length defTexture)
    S.textures (by simp) ntex.symm htexload
  unfold roundTrip
  rw [hsave]
  simp only [load_json_scene, versionGate_saveDoc, parseGroups_saveDoc, hdir,
    hshapes, htex, Bool.true_eq_false, if_false, ite_false]
  rw [padNamesTo_self S.cameras S.camera_names hcn,
      padNamesTo_self (texFilenames S) S.texture_names (htn.trans ntex.symm),
      padNamesTo_self S.materials S.material_names hmn,
      padNamesTo_self (shapeFilenames S) S.shape_names (hsn.trans nshape.symm),
      padNamesTo_self S.instances S.instance_names hin]
  have hinstmap : (S.instances.map (fun i =>
      ({ frame := i.frame, shape := i.shape, material := i.material,
         border_material := d.inst.border_material } : InstanceData))) =
      S.instances := by
    conv_rhs => rw [← List.map_id S.instances]
    apply List.map_congr_left
    intro i hi
    rw [← hbm i hi]
    rfl
  rw [hinstmap]
  rw [add_missing_camera_of_ne fr _ (by simp [hcam])]
  simp only [add_missing_radius, add_missing_caps, trim_memory]
  rw [shapesFix_rt d S.shapes hshrt]

theorem instElem_no_border (nm : String) (i di : InstanceData) :
    (instElem nm i di).memberGet "border_material" = none := by
  simp [instElem, Json.memberGet, lookupJ_append, lookupJ_mkF_ne]

/-- C10: `save_json_scene` writes only `name`, `frame`, `shape` and
`material` for each instance, so no saved instance element contains a
`border_material` key; consequently parsing the saved document yields
instances whose `border_material` is the default-constructed value, for
every scene and every choice of defaults. -/
theorem c10_border_material (d : SceneDefaults) (S : SceneData) :
    (∀ e ∈ saveInstsJ d.inst S.instances S.instance_names,
        e.memberGet "border_material" = none) ∧
    ∀ i ∈ (parseGroups d (saveDoc d S) emptyScene).1.scene.instances,
        i.border_material = d.inst.border_material := by
  constructor
  · suffices h : ∀ (is : List InstanceData) (ns : List String),
        ∀ e ∈ saveInstsJ d.inst is ns, e.memberGet "border_material" = none by
      exact h _ _
    intro is
    induction is with
    | nil => intro ns e he; simp [saveInstsJ] at he
    | cons i ir ih =>
      intro ns e he
      cases ns with
      | nil =>
        simp only [saveInstsJ, List.mem_cons] at he
        rcases he with he | he
        · subst he; exact instElem_no_border _ _ _
        · exact ih [] e he
      | cons n nr =>
        simp only [saveInstsJ, List.mem_cons] at he
        rcases he with he | he
        · subst he; exact instElem_no_border _ _ _
        · exact ih nr e he
  · rw [parseGroups_saveDoc]
    intro i hi
    simp only [List.mem_map] at hi
    obtain ⟨j, _, he⟩ := hi
    rw [← he]

/-- Witness for C10 at `sceneBorderCex`, whose single instance carries the
valid border-material index `1`: its saved element lacks the key, and the
reparsed instance carries the default index. -/
theorem c10_witness :
    Json.memberGet (instElem "i0"
      { frame := idFrame, shape := -1, material := 0, border_material := 1 }
      d0.inst) "border_material" = none ∧
    InstanceData.border_material
      ⟨idFrame, -1, 0, d0.inst.border_material⟩ = d0.inst.border_material :=
  ⟨(c10_border_material d0 sceneBorderCex).1 _ (by simp [sceneBorderCex, saveInstsJ]),
   (c10_border_material d0 sceneBorderCex).2 _ (by
      rw [parseGroups_saveDoc]; simp [sceneBorderCex])⟩

/-- Witness for C3: `sceneRTWitness` satisfies every round-trip condition
and survives the document round trip exactly. -/
theorem c3_witness :
    pathDirname "scene.json" = "" ∧ RoundTripable d0 sceneRTWitness ∧
    roundTrip d0 fr0 "scene.json" sceneRTWitness =
      (true, sceneRTWitness, "") :=
  ⟨by decide, by decide,
   c3_round_trip d0 fr0 "scene.json" sceneRTWitness (by decide) (by decide)⟩

/-- Counterexample for C3 as stated: `sceneBorderCex` has no
inline-analytic shapes, yet the round trip succeeds with a scene that
differs from it — the instance's border-material reference `1` comes back
as the default `-1`. -/
theorem c3_cex :
    (roundTrip d0 fr0 "scene.json" sceneBorderCex).1 = true ∧
    (roundTrip d0 fr0 "scene.json" sceneBorderCex).2.1 ≠ sceneBorderCex := by
  decide
